import Mathlib

/-!
Verification development for the render-state caching and shader-management
core of an SFML fork ported to OpenGL ES 2 (files
`src/SFML/Graphics/RenderTarget.cpp` and `src/SFML/Graphics/Shader.cpp`).

The C++ code is shallowly embedded as follows.

* Graphics-API (OpenGL) calls produce no observable result inside this core;
  we record each call as an element of an explicit event list (`GLCmd`,
  `ShaderEvt`).  Diagnostic messages written to the error stream are recorded
  the same way.
* Global mutable state (the context/render-target tracking map, the per-target
  `StatesCache`, the static "warned once" booleans) is threaded explicitly
  through the functions as record values.
* C++ `float` quantities are modelled as rationals, `std::size_t`/handles as
  `Nat`, GLSL locations (`GLint`, `-1` = not found) as `Int`.
* `std::map` is modelled as an association list with decidable-equality keys;
  insertion order of fresh keys is irrelevant to every claim proved here.
* The embedding fixes the compile-time configuration `SFML_OPENGL_ES`
  undefined, `SFML_DEBUG` undefined, `SFML_SYSTEM_MACOS` undefined: the
  desktop branch of each `#ifdef` in the translated functions.  Every
  property verified below lives in code shared by both configurations.
-/

namespace SFMLSpec

/-! ## Association-list primitives (model of `std::map` as used by the code) -/

/-- Lookup in an association list, first matching key wins
    (model of `std::map::find`). -/
def lookupA {α β : Type} [DecidableEq α] : List (α × β) → α → Option β
  | [], _ => none
  | (k, v) :: rest, key => if key = k then some v else lookupA rest key

/-- Replace the value stored under an existing key, leaving the list unchanged
    when the key is absent (model of `iter->second = v`). -/
def updateAssoc {α β : Type} [DecidableEq α] : List (α × β) → α → β → List (α × β)
  | [], _, _ => []
  | (k, v) :: rest, key, nv =>
      if key = k then (k, nv) :: rest else (k, v) :: updateAssoc rest key nv

/-- Insert-or-assign (model of `map[key] = v`). -/
def assocSet {α β : Type} [DecidableEq α] : List (α × β) → α → β → List (α × β)
  | [], key, nv => [(key, nv)]
  | (k, v) :: rest, key, nv =>
      if key = k then (k, nv) :: rest else (k, v) :: assocSet rest key nv

/-! ## Shader subsystem (`src/SFML/Graphics/Shader.cpp`)

The graphics backend behind the GL entry points used by `sf::Shader` is an
oracle `ShaderEnv`: it fixes the answers of `glGetUniformLocation`, of the
per-stage compile status checks, of the link status check, of the
`GL_MAX_COMBINED_TEXTURE_IMAGE_UNITS` probe and the handle returned by
`glCreateProgramObject`. -/

/-- The three shader stages handled by `Shader::compile`. -/
inductive StageKind
  | vertexStage
  | geometryStage
  | fragmentStage
  deriving DecidableEq

/-- Backend oracle for the shader subsystem. -/
structure ShaderEnv where
  /-- `Shader::isAvailable()` (memoized capability probe). -/
  shaderAvailable : Bool
  /-- `Shader::isGeometryAvailable()`. -/
  geometryAvailable : Bool
  /-- `getMaxTextureUnits()`: the memoized `GL_MAX_COMBINED_TEXTURE_IMAGE_UNITS`. -/
  maxTextureUnits : Nat
  /-- `glGetUniformLocation(program, name)`; `-1` means not found. -/
  loc : Nat → String → Int
  /-- Whether `glCompileShader` succeeds for a given stage and source text. -/
  compileOk : StageKind → String → Bool
  /-- Whether `glLinkProgram` succeeds for the given attached sources. -/
  linkOk : Option String → Option String → Option String → Bool
  /-- The handle produced by `glCreateProgramObject` for the next compile. -/
  newProgramHandle : Nat

/-- The mutable state of one `sf::Shader` object. -/
structure ShaderState where
  /-- `m_shaderProgram`; `0` = no linked program. -/
  m_shaderProgram : Nat
  /-- `m_currentTexture`: location of the current-texture uniform, `-1` = unset. -/
  m_currentTexture : Int
  /-- `m_textures`: uniform location to texture (weak reference, modelled by
      the texture cache-id). -/
  m_textures : List (Int × Nat)
  /-- `m_uniforms`: memoized uniform name to location. -/
  m_uniforms : List (String × Int)
  deriving DecidableEq

/-- Observable actions of the shader subsystem: GL calls and logged errors. -/
inductive ShaderEvt
  | useProgram (h : Nat)
  | queryUniformLocation (program : Nat) (name : String)
  | uniform1f (location : Int) (x : Rat)
  | errUniformNotFound (name : String)
  | errTextureUnitsExhausted (name : String)
  | errShaderUnavailable
  | errGeometryUnavailable
  | errCompileStage (k : StageKind)
  | errLink
  | createProgram (h : Nat)
  | createShaderObj (k : StageKind)
  | shaderSourceCmd (k : StageKind)
  | compileShaderCmd (k : StageKind)
  | attachShaderCmd (k : StageKind)
  | deleteShaderObj (k : StageKind)
  | linkProgramCmd
  | deleteProgram (h : Nat)
  | glFlushCmd
  deriving DecidableEq

/-- `Shader::getNativeHandle()`. -/
def getNativeHandle (s : ShaderState) : Nat :=
  s.m_shaderProgram

/-- `Shader::getUniformLocation(name)`: consult the memo table `m_uniforms`;
    on a miss, query the backend, memoize the answer (including `-1`) and log
    a diagnostic when the uniform is absent.  Returns the location, the
    updated shader state, and the events performed. -/
def getUniformLocation (env : ShaderEnv) (s : ShaderState) (name : String) :
    Int × ShaderState × List ShaderEvt :=
  match lookupA s.m_uniforms name with
  | some l => (l, s, [])
  | none =>
      let l := env.loc s.m_shaderProgram name
      (l, { s with m_uniforms := (name, l) :: s.m_uniforms },
        [ShaderEvt.queryUniformLocation s.m_shaderProgram name]
          ++ (if l = -1 then [ShaderEvt.errUniformNotFound name] else []))

/-- `Shader::setUniform(name, float)` through `Shader::UniformBinder`:
    when the object has no program the binder does nothing at all; otherwise
    it binds the program if it differs from the one currently bound, resolves
    the location, issues `glUniform1f` when the location is valid, and
    restores the previous binding.  `bound` is the program currently bound in
    the active context. -/
def setUniformFloat (env : ShaderEnv) (s : ShaderState) (bound : Nat)
    (name : String) (x : Rat) : ShaderState × Nat × List ShaderEvt :=
  if s.m_shaderProgram ≠ 0 then
    let saved := bound
    let e1 := if s.m_shaderProgram ≠ saved
      then [ShaderEvt.useProgram s.m_shaderProgram] else []
    let r := getUniformLocation env s name
    let e2 := if r.1 ≠ -1 then [ShaderEvt.uniform1f r.1 x] else []
    let e3 := if s.m_shaderProgram ≠ saved
      then [ShaderEvt.useProgram saved] else []
    (r.2.1, saved, e1 ++ r.2.2 ++ e2 ++ e3)
  else (s, bound, [])

/-- `Shader::setUniform(name, const Texture&)`: resolve the location; for a
    location not yet in `m_textures` refuse (log, record nothing) when
    `m_textures.size() + 1 >= getMaxTextureUnits()`, otherwise insert; for a
    location already present just replace the referenced texture. -/
def setUniformTexture (env : ShaderEnv) (s : ShaderState) (name : String)
    (tex : Nat) : ShaderState × List ShaderEvt :=
  if s.m_shaderProgram ≠ 0 then
    let r := getUniformLocation env s name
    let s1 := r.2.1
    if r.1 ≠ -1 then
      match lookupA s1.m_textures r.1 with
      | none =>
          if s1.m_textures.length + 1 ≥ env.maxTextureUnits then
            (s1, r.2.2 ++ [ShaderEvt.errTextureUnitsExhausted name])
          else
            ({ s1 with m_textures := (r.1, tex) :: s1.m_textures }, r.2.2)
      | some _ =>
          ({ s1 with m_textures := updateAssoc s1.m_textures r.1 tex }, r.2.2)
    else (s1, r.2.2)
  else (s, [])

/-- `Shader::setUniform(name, CurrentTexture)`: record the resolved location
    in `m_currentTexture` instead of the texture table. -/
def setUniformCurrentTexture (env : ShaderEnv) (s : ShaderState)
    (name : String) : ShaderState × List ShaderEvt :=
  if s.m_shaderProgram ≠ 0 then
    let r := getUniformLocation env s name
    ({ r.2.1 with m_currentTexture := r.1 }, r.2.2)
  else (s, [])

/-- One stage of `Shader::compile`: create, source and compile the stage
    object when source is supplied; on success attach it to the program and
    delete the stage object, on failure log, delete the stage object and the
    program, and abort. -/
def stageStep (env : ShaderEnv) (k : StageKind) (prog : Nat)
    (code : Option String) : Bool × List ShaderEvt :=
  match code with
  | none => (true, [])
  | some c =>
      if env.compileOk k c then
        (true, [ShaderEvt.createShaderObj k, ShaderEvt.shaderSourceCmd k,
                ShaderEvt.compileShaderCmd k, ShaderEvt.attachShaderCmd k,
                ShaderEvt.deleteShaderObj k])
      else
        (false, [ShaderEvt.createShaderObj k, ShaderEvt.shaderSourceCmd k,
                 ShaderEvt.compileShaderCmd k, ShaderEvt.errCompileStage k,
                 ShaderEvt.deleteShaderObj k, ShaderEvt.deleteProgram prog])

/-- `Shader::compile(vertex?, geometry?, fragment?)`.  After the two
    availability guards it unconditionally destroys any previously linked
    program and clears `m_currentTexture`, `m_textures` and `m_uniforms`;
    then it compiles the supplied stages in order, links, and only on full
    success stores the new handle (followed by a `glFlush`). -/
def compile (env : ShaderEnv) (s : ShaderState)
    (vsrc gsrc fsrc : Option String) : Bool × ShaderState × List ShaderEvt :=
  if env.shaderAvailable = false then
    (false, s, [ShaderEvt.errShaderUnavailable])
  else if gsrc.isSome ∧ env.geometryAvailable = false then
    (false, s, [ShaderEvt.errGeometryUnavailable])
  else
    let destroyEvts := if s.m_shaderProgram ≠ 0
      then [ShaderEvt.deleteProgram s.m_shaderProgram] else []
    let s1 : ShaderState :=
      { m_shaderProgram := 0, m_currentTexture := -1,
        m_textures := [], m_uniforms := [] }
    let prog := env.newProgramHandle
    let e0 := destroyEvts ++ [ShaderEvt.createProgram prog]
    let sv := stageStep env StageKind.vertexStage prog vsrc
    if sv.1 = false then (false, s1, e0 ++ sv.2)
    else
      let sg := stageStep env StageKind.geometryStage prog gsrc
      if sg.1 = false then (false, s1, e0 ++ sv.2 ++ sg.2)
      else
        let sf := stageStep env StageKind.fragmentStage prog fsrc
        if sf.1 = false then (false, s1, e0 ++ sv.2 ++ sg.2 ++ sf.2)
        else
          if env.linkOk vsrc gsrc fsrc = false then
            (false, s1,
              e0 ++ sv.2 ++ sg.2 ++ sf.2
                ++ [ShaderEvt.linkProgramCmd, ShaderEvt.errLink,
                    ShaderEvt.deleteProgram prog])
          else
            (true, { s1 with m_shaderProgram := prog },
              e0 ++ sv.2 ++ sg.2 ++ sf.2
                ++ [ShaderEvt.linkProgramCmd, ShaderEvt.glFlushCmd])

/-- Whether a given stage source would pass its compile-status check. -/
def stageOk (env : ShaderEnv) (k : StageKind) : Option String → Bool
  | none => true
  | some c => env.compileOk k c

/-- Whether the whole stage-compilation and link pipeline would succeed. -/
def buildOk (env : ShaderEnv) (vsrc gsrc fsrc : Option String) : Bool :=
  stageOk env StageKind.vertexStage vsrc
    && stageOk env StageKind.geometryStage gsrc
    && stageOk env StageKind.fragmentStage fsrc
    && env.linkOk vsrc gsrc fsrc

/-- The location `getUniformLocation` resolves a name to: the memoized value
    when present, the backend answer otherwise. -/
def resolvedLoc (env : ShaderEnv) (s : ShaderState) (name : String) : Int :=
  match lookupA s.m_uniforms name with
  | some l => l
  | none => env.loc s.m_shaderProgram name

/-- Number of texture-unit capacity errors in a shader event list. -/
def capacityErrCount (l : List ShaderEvt) : Nat :=
  (l.filter (fun e => match e with
    | ShaderEvt.errTextureUnitsExhausted _ => true
    | _ => false)).length

/-- Number of backend uniform-location queries in a shader event list. -/
def queryCount (l : List ShaderEvt) : Nat :=
  (l.filter (fun e => match e with
    | ShaderEvt.queryUniformLocation _ _ => true
    | _ => false)).length

/-- Number of uniform-not-found diagnostics in a shader event list. -/
def notFoundLogCount (l : List ShaderEvt) : Nat :=
  (l.filter (fun e => match e with
    | ShaderEvt.errUniformNotFound _ => true
    | _ => false)).length

/-- `Shader::setUniform(name, texture)` folded over a list of
    (name, texture) requests, accumulating events. -/
def setTexturesFold (env : ShaderEnv) :
    List (String × Nat) → ShaderState → ShaderState × List ShaderEvt
  | [], s => (s, [])
  | p :: rest, s =>
      let r := setUniformTexture env s p.1 p.2
      let r2 := setTexturesFold env rest r.1
      (r2.1, r.2 ++ r2.2)

/-! ## Render-target subsystem (`src/SFML/Graphics/RenderTarget.cpp`) -/

/-- `sf::BlendMode::Factor`. -/
inductive BlendFactor
  | zero | one | srcColor | oneMinusSrcColor | dstColor | oneMinusDstColor
  | srcAlpha | oneMinusSrcAlpha | dstAlpha | oneMinusDstAlpha
  deriving DecidableEq

/-- `sf::BlendMode::Equation`. -/
inductive BlendEquation
  | add | subtract | reverseSubtract | min | max
  deriving DecidableEq

/-- `sf::BlendMode`: the six blending sub-fields.  `BlendMode.hpp` is not part
    of the sources under study; the field set and the component-wise equality
    operator are documented by the caching-strategy comment at the bottom of
    `RenderTarget.cpp` ("whether any of the 6 blending components changed"). -/
structure BlendMode where
  colorSrcFactor : BlendFactor
  colorDstFactor : BlendFactor
  colorEquation : BlendEquation
  alphaSrcFactor : BlendFactor
  alphaDstFactor : BlendFactor
  alphaEquation : BlendEquation
  deriving DecidableEq

/-- Modelled from the spec: `sf::BlendAlpha`, the default blend mode applied
    by `resetGLStates` ("alpha blending: src-alpha / one-minus-src-alpha, add
    equation", spec section 4.2); its defining constant lives in
    `BlendMode.cpp`, which is not among the sources under study. -/
def blendAlpha : BlendMode :=
  { colorSrcFactor := BlendFactor.srcAlpha,
    colorDstFactor := BlendFactor.oneMinusSrcAlpha,
    colorEquation := BlendEquation.add,
    alphaSrcFactor := BlendFactor.one,
    alphaDstFactor := BlendFactor.oneMinusSrcAlpha,
    alphaEquation := BlendEquation.add }

/-- The OpenGL constants this core passes to the GL entry points. -/
inductive GlConst
  | glZero | glOne | glSrcColor | glOneMinusSrcColor | glDstColor
  | glOneMinusDstColor | glSrcAlpha | glOneMinusSrcAlpha | glDstAlpha
  | glOneMinusDstAlpha
  | glFuncAdd | glFuncSubtract | glFuncReverseSubtract | glMin | glMax
  | glPoints | glLines | glLineStrip | glTriangles | glTriangleStrip
  | glTriangleFan | glQuads
  deriving DecidableEq

/-- `sf::PrimitiveType`. -/
inductive PrimitiveType
  | points | lines | lineStrip | triangles | triangleStrip | triangleFan
  | quads
  deriving DecidableEq

/-- The `modes[]` table of `RenderTarget::drawPrimitives`. -/
def primitiveToGl : PrimitiveType → GlConst
  | PrimitiveType.points => GlConst.glPoints
  | PrimitiveType.lines => GlConst.glLines
  | PrimitiveType.lineStrip => GlConst.glLineStrip
  | PrimitiveType.triangles => GlConst.glTriangles
  | PrimitiveType.triangleStrip => GlConst.glTriangleStrip
  | PrimitiveType.triangleFan => GlConst.glTriangleFan
  | PrimitiveType.quads => GlConst.glQuads

/-- A 2D affine transform (`sf::Transform` restricted to the entries its 2D
    pipeline uses), over exact rationals in place of `float`. -/
structure Transform where
  a00 : Rat
  a01 : Rat
  a02 : Rat
  a10 : Rat
  a11 : Rat
  a12 : Rat
  deriving DecidableEq

/-- `sf::Transform::Identity`. -/
def Transform.identity : Transform :=
  { a00 := 1, a01 := 0, a02 := 0, a10 := 0, a11 := 1, a12 := 0 }

/-- `Transform::transformPoint`. -/
def Transform.transformPoint (t : Transform) (p : Rat × Rat) : Rat × Rat :=
  (t.a00 * p.1 + t.a01 * p.2 + t.a02, t.a10 * p.1 + t.a11 * p.2 + t.a12)

/-- `sf::Vertex` (color carried as an opaque payload: the draw path only
    copies it). -/
structure Vertex where
  position : Rat × Rat
  color : Nat
  texCoords : Rat × Rat
  deriving DecidableEq

/-- The body of the pre-transform loop of
    `RenderTarget::draw(const Vertex*, ...)`: position transformed by
    `states.transform`, color and texture coordinates copied. -/
def transformVertex (t : Transform) (v : Vertex) : Vertex :=
  { position := t.transformPoint v.position,
    color := v.color, texCoords := v.texCoords }

/-- `sf::FloatRect` over rationals. -/
structure FloatRect where
  left : Rat
  top : Rat
  width : Rat
  height : Rat
  deriving DecidableEq

/-- `sf::IntRect`. -/
structure IntRect where
  left : Int
  top : Int
  width : Int
  height : Int
  deriving DecidableEq

/-- C++ `static_cast<int>` applied to a real value: truncation toward zero. -/
def castCppInt (q : Rat) : Int :=
  if 0 ≤ q then ⌊q⌋ else ⌈q⌉

/-- `RenderTarget::getViewport(view)`: scale the normalized viewport rectangle
    of the view by the target pixel size and convert each coordinate with
    `static_cast<int>(0.5f + dimension * coordinate)`. -/
def getViewport (sizeX sizeY : Nat) (viewport : FloatRect) : IntRect :=
  let width : Rat := sizeX
  let height : Rat := sizeY
  { left := castCppInt (1/2 + width * viewport.left),
    top := castCppInt (1/2 + height * viewport.top),
    width := castCppInt (1/2 + width * viewport.width),
    height := castCppInt (1/2 + height * viewport.height) }

/-- `sf::View` as consumed by this core: its normalized viewport rectangle and
    the projection transform computed by `View::getTransform()` (`View.cpp`
    is not among the sources under study, so the transform is carried as
    data). -/
structure View where
  viewport : FloatRect
  transform : Transform
  deriving DecidableEq

/-- A texture as seen by the render target: its monotonic cache identifier
    (`m_cacheId`) and whether it is a framebuffer attachment
    (`m_fboAttachment`). -/
structure TextureRef where
  cacheId : Nat
  fboAttachment : Bool
  deriving DecidableEq

/-- `sf::RenderStates` as consumed by the draw path (the shader carried as an
    opaque object handle). -/
structure RenderStates where
  transform : Transform
  blendMode : BlendMode
  texture : Option TextureRef
  shader : Option Nat
  deriving DecidableEq

/-- `StatesCache::VertexCacheSize`.  The header defining `StatesCache` is not
    among the sources under study; modelled from the spec: "the small
    fixed-size internal buffer (bounded, e.g. 4 vertices)".  Every theorem
    below depends only on threshold behaviour relative to this constant. -/
def VertexCacheSize : Nat := 4

/-- The per-target `StatesCache` (fields as used by `RenderTarget.cpp` in the
    desktop configuration; the header itself is not among the sources). -/
structure StatesCache where
  /-- `enable`: cache-valid flag. -/
  enable : Bool
  /-- `glStatesSet`: baseline GL states pushed at least once. -/
  glStatesSet : Bool
  /-- `viewChanged`: set by `setView`, cleared by `applyCurrentView`. -/
  viewChanged : Bool
  /-- `lastBlendMode`. -/
  lastBlendMode : BlendMode
  /-- `lastTextureId`: cache-id of the last bound texture, `0` = none. -/
  lastTextureId : Nat
  /-- `texCoordsArrayEnabled`. -/
  texCoordsArrayEnabled : Bool
  /-- `useVertexCache`. -/
  useVertexCache : Bool
  /-- `vertexCache`: fixed array of `VertexCacheSize` vertices. -/
  vertexCache : List Vertex
  deriving DecidableEq

/-- Capability flags of the extension table (`GLEXT_*`) plus the memoized
    availability probes consulted by `resetGLStates`. -/
structure Caps where
  blendFuncSeparate : Bool
  blendEquationSeparate : Bool
  blendMinmax : Bool
  blendSubtract : Bool
  multitexture : Bool
  shaderAvailable : Bool
  vertexBufferAvailable : Bool
  deriving DecidableEq

/-- Observable actions of the render-target subsystem: GL calls and logged
    warnings. -/
inductive GLCmd
  | blendFuncSeparateCmd (csrc cdst asrc adst : GlConst)
  | blendFuncCmd (src dst : GlConst)
  | blendEquationSeparateCmd (ceq aeq : GlConst)
  | blendEquationCmd (eq : GlConst)
  | loadIdentity
  | loadMatrix (t : Transform)
  | viewportCmd (left bottom width height : Int)
  | matrixModeProjection
  | matrixModeModelview
  | drawArraysCmd (mode : GlConst) (first count : Nat)
  | textureBind (texId : Option Nat)
  | shaderBind (program : Option Nat)
  | vertexBufferBindNone
  | clientActiveTextureZero
  | activeTextureZero
  | disableCullFace
  | disableDepthTest
  | enableBlend
  | disableAlphaTest
  | disableLighting
  | enableTexture2D
  | enableClientStateVertexArray
  | enableClientStateColorArray
  | enableClientStateTexCoordArray
  | disableClientStateTexCoordArray
  | vertexPointerCmd
  | colorPointerCmd
  | texCoordPointerCmd
  | disableFramebufferSrgb
  | enableFramebufferSrgb
  | ensureExtensionsInitCmd
  | warnBlendEquationUnavailable
  | warnEquationFallback
  deriving DecidableEq

/-- The full state the render-target code reads and writes: the process-wide
    context-to-target tracking map, the identifier of the context active on
    the calling thread, this target's identifier, size, current view and
    `StatesCache`, and the two process-wide static "warned once" flags of
    `RenderTargetImpl::equationToGlConstant` and
    `RenderTarget::applyBlendMode`. -/
structure RTWorld where
  ctxMap : List (Nat × Nat)
  activeContext : Nat
  id : Nat
  sizeX : Nat
  sizeY : Nat
  view : View
  cache : StatesCache
  warnedEquationFallback : Bool
  warnedBlendUnavailable : Bool
  deriving DecidableEq

/-- `RenderTargetImpl::isActive(id)` specialized to this target inside its
    world: the tracker entry for the active context exists and equals the
    target's id. -/
def isActiveW (w : RTWorld) : Bool :=
  match lookupA w.ctxMap w.activeContext with
  | none => false
  | some v => if v = w.id then true else false

/-- `RenderTarget::setActive(active)` (tracker-map manipulation only; the
    return value is always `true`). -/
def setActiveW (active : Bool) (w : RTWorld) : RTWorld :=
  if active then
    match lookupA w.ctxMap w.activeContext with
    | none =>
        { w with ctxMap := assocSet w.ctxMap w.activeContext w.id,
                 cache := { w.cache with glStatesSet := false, enable := false } }
    | some v =>
        if v = w.id then w
        else
          { w with ctxMap := assocSet w.ctxMap w.activeContext w.id,
                   cache := { w.cache with enable := false } }
  else
    -- `erase` when present; erasing an absent key leaves the map unchanged
    let erased := w.ctxMap.filter (fun p => decide (p.1 ≠ w.activeContext))
    { w with ctxMap := erased,
             cache := { w.cache with enable := false } }

/-- The ensure-active pattern `isActive(m_id) || setActive(true)`: the guard
    always passes because `setActive` returns true unconditionally; its only
    effect is the possible tracker/cache update. -/
def ensureActiveW (w : RTWorld) : RTWorld :=
  if isActiveW w then w else setActiveW true w

/-- `RenderTargetImpl::factorToGlConstant`. -/
def factorToGlConstant : BlendFactor → GlConst
  | BlendFactor.zero => GlConst.glZero
  | BlendFactor.one => GlConst.glOne
  | BlendFactor.srcColor => GlConst.glSrcColor
  | BlendFactor.oneMinusSrcColor => GlConst.glOneMinusSrcColor
  | BlendFactor.dstColor => GlConst.glDstColor
  | BlendFactor.oneMinusDstColor => GlConst.glOneMinusDstColor
  | BlendFactor.srcAlpha => GlConst.glSrcAlpha
  | BlendFactor.oneMinusSrcAlpha => GlConst.glOneMinusSrcAlpha
  | BlendFactor.dstAlpha => GlConst.glDstAlpha
  | BlendFactor.oneMinusDstAlpha => GlConst.glOneMinusDstAlpha

/-- `RenderTargetImpl::equationToGlConstant`: returns the GL constant for the
    requested equation when the owning extension is available; otherwise
    falls back to `GL_FUNC_ADD`, logging the fallback warning the first time
    (static `warned` flag threaded through).  Result: constant, updated
    warned flag, emitted events. -/
def equationToGlConstant (caps : Caps) (warned : Bool) :
    BlendEquation → GlConst × Bool × List GLCmd
  | BlendEquation.add => (GlConst.glFuncAdd, warned, [])
  | BlendEquation.subtract =>
      if caps.blendSubtract then (GlConst.glFuncSubtract, warned, [])
      else (GlConst.glFuncAdd, true,
        if warned then [] else [GLCmd.warnEquationFallback])
  | BlendEquation.reverseSubtract =>
      if caps.blendSubtract then (GlConst.glFuncReverseSubtract, warned, [])
      else (GlConst.glFuncAdd, true,
        if warned then [] else [GLCmd.warnEquationFallback])
  | BlendEquation.min =>
      if caps.blendMinmax then (GlConst.glMin, warned, [])
      else (GlConst.glFuncAdd, true,
        if warned then [] else [GLCmd.warnEquationFallback])
  | BlendEquation.max =>
      if caps.blendMinmax then (GlConst.glMax, warned, [])
      else (GlConst.glFuncAdd, true,
        if warned then [] else [GLCmd.warnEquationFallback])

/-- The command/flag computation of `RenderTarget::applyBlendMode`: issue the
    (separate or combined) blend function; issue a blend equation only when a
    blending-equation extension exists, otherwise log a one-time warning when
    a non-additive equation was requested.  Arguments and results carry the
    two process-wide static `warned` flags (of `equationToGlConstant` and of
    `applyBlendMode` itself). -/
def applyBlendModeAux (caps : Caps) (mode : BlendMode)
    (warnedEq warnedBlend : Bool) : Bool × Bool × List GLCmd :=
  let funcCmds :=
    if caps.blendFuncSeparate then
      [GLCmd.blendFuncSeparateCmd
        (factorToGlConstant mode.colorSrcFactor)
        (factorToGlConstant mode.colorDstFactor)
        (factorToGlConstant mode.alphaSrcFactor)
        (factorToGlConstant mode.alphaDstFactor)]
    else
      [GLCmd.blendFuncCmd
        (factorToGlConstant mode.colorSrcFactor)
        (factorToGlConstant mode.colorDstFactor)]
  if caps.blendMinmax = true ∨ caps.blendSubtract = true then
    if caps.blendEquationSeparate then
      let r1 := equationToGlConstant caps warnedEq mode.colorEquation
      let r2 := equationToGlConstant caps r1.2.1 mode.alphaEquation
      (r2.2.1, warnedBlend,
        funcCmds ++ r1.2.2 ++ r2.2.2
          ++ [GLCmd.blendEquationSeparateCmd r1.1 r2.1])
    else
      let r1 := equationToGlConstant caps warnedEq mode.colorEquation
      (r1.2.1, warnedBlend,
        funcCmds ++ r1.2.2 ++ [GLCmd.blendEquationCmd r1.1])
  else
    if mode.colorEquation ≠ BlendEquation.add
        ∨ mode.alphaEquation ≠ BlendEquation.add then
      if warnedBlend = false then
        (warnedEq, true, funcCmds ++ [GLCmd.warnBlendEquationUnavailable])
      else (warnedEq, warnedBlend, funcCmds)
    else (warnedEq, warnedBlend, funcCmds)

/-- `RenderTarget::applyBlendMode`: perform the command/flag computation and
    record the mode in `lastBlendMode`. -/
def applyBlendMode (caps : Caps) (mode : BlendMode) (w : RTWorld) :
    RTWorld × List GLCmd :=
  let r := applyBlendModeAux caps mode w.warnedEquationFallback
    w.warnedBlendUnavailable
  ({ w with warnedEquationFallback := r.1,
            warnedBlendUnavailable := r.2.1,
            cache := { w.cache with lastBlendMode := mode } },
    r.2.2)

/-- `states.texture && states.texture->m_fboAttachment`. -/
def fboAttached (states : RenderStates) : Bool :=
  match states.texture with
  | some t => t.fboAttachment
  | none => false

/-- `texture ? texture->m_cacheId : 0`. -/
def textureCacheId (t : Option TextureRef) : Nat :=
  match t with
  | some tex => tex.cacheId
  | none => 0

/-- `RenderTarget::applyTransform`: identity loads the identity matrix,
    anything else uploads the matrix. -/
def applyTransformCmds (t : Transform) : List GLCmd :=
  if t = Transform.identity then [GLCmd.loadIdentity] else [GLCmd.loadMatrix t]

/-- `RenderTarget::applyTexture`: bind (or unbind) and record the cache-id in
    `lastTextureId` (`0` = none). -/
def applyTexture (t : Option TextureRef) (w : RTWorld) : RTWorld × List GLCmd :=
  ({ w with cache := { w.cache with lastTextureId := textureCacheId t } },
   [GLCmd.textureBind (t.map TextureRef.cacheId)])

/-- `RenderTarget::applyCurrentView`: set the pixel viewport (with the Y
    flip), load the view transform as the projection matrix, return to
    model-view mode, and clear `viewChanged`. -/
def applyCurrentView (w : RTWorld) : RTWorld × List GLCmd :=
  let vp := getViewport w.sizeX w.sizeY w.view.viewport
  let top := (w.sizeY : Int) - (vp.top + vp.height)
  ({ w with cache := { w.cache with viewChanged := false } },
   [GLCmd.viewportCmd vp.left top vp.width vp.height,
    GLCmd.matrixModeProjection, GLCmd.loadMatrix w.view.transform,
    GLCmd.matrixModeModelview])

/-- `RenderTarget::resetGLStates` (desktop configuration, no macOS
    workaround): re-establish the baseline pipeline state, apply the default
    blend mode, unbind texture, shader and vertex buffer, mark the view dirty
    (`setView(getView())`) and re-enable the cache. -/
def resetGLStates (caps : Caps) (w : RTWorld) : RTWorld × List GLCmd :=
  let w1 := ensureActiveW w
  let e1 := [GLCmd.ensureExtensionsInitCmd]
  let e2 := if caps.multitexture
    then [GLCmd.clientActiveTextureZero, GLCmd.activeTextureZero] else []
  let e3 := [GLCmd.disableCullFace, GLCmd.disableDepthTest, GLCmd.enableBlend,
             GLCmd.disableAlphaTest, GLCmd.disableLighting,
             GLCmd.enableTexture2D, GLCmd.matrixModeModelview,
             GLCmd.loadIdentity, GLCmd.enableClientStateVertexArray,
             GLCmd.enableClientStateColorArray,
             GLCmd.enableClientStateTexCoordArray]
  let w2 := { w1 with cache := { w1.cache with glStatesSet := true } }
  let rb := applyBlendMode caps blendAlpha w2
  let rt := applyTexture none rb.1
  let e4 := if caps.shaderAvailable then [GLCmd.shaderBind none] else []
  let e5 := if caps.vertexBufferAvailable then [GLCmd.vertexBufferBindNone]
    else []
  let w3 := { rt.1 with cache := { rt.1.cache with
    texCoordsArrayEnabled := true, useVertexCache := false,
    viewChanged := true, enable := true } }
  (w3, e1 ++ e2 ++ e3 ++ rb.2 ++ rt.2 ++ e4 ++ e5)

/-- Step 1 of `RenderTarget::setupDraw`: push the persistent GL states on the
    very first draw (`if (!m_cache.glStatesSet) resetGLStates()`). -/
def glStatesStep (caps : Caps) (w : RTWorld) : RTWorld × List GLCmd :=
  if w.cache.glStatesSet = false then resetGLStates caps w else (w, [])

/-- Step 2 of `setupDraw`: the transform decision.  With the vertex cache in
    use, load the identity matrix unless the cache is valid and the previous
    draw also used the vertex cache (the identity is then already loaded);
    otherwise apply `states.transform`. -/
def transformCmds (useVertexCache : Bool) (t : Transform) (w : RTWorld) :
    List GLCmd :=
  if useVertexCache then
    if w.cache.enable = false ∨ w.cache.useVertexCache = false then
      [GLCmd.loadIdentity]
    else []
  else applyTransformCmds t

/-- Step 3 of `setupDraw`: reapply the view when the cache is invalid or the
    view changed. -/
def viewStep (w : RTWorld) : RTWorld × List GLCmd :=
  if w.cache.enable = false ∨ w.cache.viewChanged = true then
    applyCurrentView w
  else (w, [])

/-- Step 4 of `setupDraw`: apply the blend mode when the cache is invalid or
    the mode differs (in any of its six sub-fields) from `lastBlendMode`. -/
def blendStep (caps : Caps) (states : RenderStates) (w : RTWorld) :
    RTWorld × List GLCmd :=
  if w.cache.enable = false ∨ states.blendMode ≠ w.cache.lastBlendMode then
    applyBlendMode caps states.blendMode w
  else (w, [])

/-- Step 5 of `setupDraw`: rebind the texture when the cache is invalid or
    the texture is an FBO attachment (always rebound), otherwise only when
    its cache-id differs from `lastTextureId`. -/
def textureStep (states : RenderStates) (w : RTWorld) : RTWorld × List GLCmd :=
  if w.cache.enable = false ∨ fboAttached states = true then
    applyTexture states.texture w
  else
    if textureCacheId states.texture ≠ w.cache.lastTextureId then
      applyTexture states.texture w
    else (w, [])

/-- `RenderTarget::setupDraw` (desktop configuration): sRGB toggle when the
    cache is invalid, lazy `resetGLStates`, transform decision for the
    vertex-cache optimization, lazy view reapplication, blend-mode
    memoization, texture rebind policy (FBO attachments always rebound), and
    shader bind. -/
def setupDraw (caps : Caps) (useVertexCache : Bool) (states : RenderStates)
    (w : RTWorld) : RTWorld × List GLCmd :=
  let e0 := if w.cache.enable = false then [GLCmd.disableFramebufferSrgb]
    else []
  let r1 := glStatesStep caps w
  let e2 := transformCmds useVertexCache states.transform r1.1
  let r3 := viewStep r1.1
  let r4 := blendStep caps states r3.1
  let r5 := textureStep states r4.1
  let e6 := if states.shader.isSome then [GLCmd.shaderBind states.shader]
    else []
  (r5.1, e0 ++ r1.2 ++ e2 ++ r3.2 ++ r4.2 ++ r5.2 ++ e6)

/-- `RenderTarget::cleanupDraw`: unbind a draw-local shader, forcibly unbind
    an FBO-attachment texture, and re-enable the cache. -/
def cleanupDraw (states : RenderStates) (w : RTWorld) : RTWorld × List GLCmd :=
  let e1 := if states.shader.isSome then [GLCmd.shaderBind none] else []
  let r2 :=
    if fboAttached states = true then applyTexture none w
    else (w, [])
  ({ r2.1 with cache := { r2.1.cache with enable := true } }, e1 ++ r2.2)

/-- Write the pre-transformed vertices over the front of the fixed vertex
    cache, keeping the remaining slots (the C++ loop writes indices
    `0 ≤ i < vertexCount` of the fixed array). -/
def overwriteFront : List Vertex → List Vertex → List Vertex
  | [], old => old
  | _ :: _, [] => []
  | n :: ns, _ :: os => n :: overwriteFront ns os

/-- The pre-transform branch of `RenderTarget::draw`: when the vertex count
    fits the cache, write the vertices transformed by `states.transform` over
    the front of the fixed vertex cache. -/
def vertexCacheWrite (useVC : Bool) (t : Transform) (verts : List Vertex)
    (w : RTWorld) : RTWorld :=
  if useVC then
    let newCache := overwriteFront (verts.map (transformVertex t))
      w.cache.vertexCache
    { w with cache := { w.cache with vertexCache := newCache } }
  else w

/-- The texture-coordinate client-state toggle and vertex-component pointer
    setup of `RenderTarget::draw` (desktop configuration). -/
def clientStateCmds (useVC enableTexCoords : Bool) (w : RTWorld) :
    List GLCmd :=
  let e2 := if w.cache.enable = false
      ∨ enableTexCoords ≠ w.cache.texCoordsArrayEnabled then
      if enableTexCoords then [GLCmd.enableClientStateTexCoordArray]
      else [GLCmd.disableClientStateTexCoordArray]
    else []
  let e3 := if w.cache.enable = false ∨ useVC = false
      ∨ w.cache.useVertexCache = false then
      [GLCmd.vertexPointerCmd, GLCmd.colorPointerCmd]
        ++ (if enableTexCoords then [GLCmd.texCoordPointerCmd] else [])
    else if enableTexCoords = true
        ∧ w.cache.texCoordsArrayEnabled = false then
      [GLCmd.texCoordPointerCmd]
    else []
  e2 ++ e3

/-- The guarded body of `RenderTarget::draw(const Vertex*, ...)` (desktop
    configuration), reached once the null/empty checks passed: ensure-active,
    vertex-cache decision and pre-transform, `setupDraw`, client-state and
    pointer setup, `drawPrimitives`, `cleanupDraw`, and the final cache
    update. -/
def drawCore (caps : Caps) (w : RTWorld) (verts : List Vertex)
    (ptype : PrimitiveType) (states : RenderStates) : RTWorld × List GLCmd :=
  let w1 := ensureActiveW w
  let useVC : Bool := decide (verts.length ≤ VertexCacheSize)
  let w2 := vertexCacheWrite useVC states.transform verts w1
  let r1 := setupDraw caps useVC states w2
  let enableTexCoords : Bool := states.texture.isSome || states.shader.isSome
  let e23 := clientStateCmds useVC enableTexCoords r1.1
  let e4 := [GLCmd.drawArraysCmd (primitiveToGl ptype) 0 verts.length]
  let r5 := cleanupDraw states r1.1
  let w5 := { r5.1 with cache := { r5.1.cache with
    useVertexCache := useVC, texCoordsArrayEnabled := enableTexCoords } }
  (w5, r1.2 ++ e23 ++ e4 ++ r5.2)

/-- `RenderTarget::draw(const Vertex*, std::size_t, PrimitiveType,
    const RenderStates&)` (desktop configuration).  A null vertex pointer is
    `none`; the vertex count is the length of the supplied list.  Returns the
    final world and the events of this call. -/
def draw (caps : Caps) (w : RTWorld) (vertices : Option (List Vertex))
    (ptype : PrimitiveType) (states : RenderStates) : RTWorld × List GLCmd :=
  match vertices with
  | none => (w, [])
  | some verts =>
    if verts.length = 0 then (w, [])
    else drawCore caps w verts ptype states

/-- One draw request, for sequences of draws. -/
structure DrawInput where
  vertices : Option (List Vertex)
  ptype : PrimitiveType
  states : RenderStates

/-- A sequence of draw calls, accumulating all emitted events. -/
def drawSeq (caps : Caps) : List DrawInput → RTWorld → RTWorld × List GLCmd
  | [], w => (w, [])
  | d :: rest, w =>
      let r := draw caps w d.vertices d.ptype d.states
      let r2 := drawSeq caps rest r.1
      (r2.1, r.2 ++ r2.2)

/-- Blend-state-change commands among the events. -/
def isBlendCmd : GLCmd → Bool
  | GLCmd.blendFuncSeparateCmd _ _ _ _ => true
  | GLCmd.blendFuncCmd _ _ => true
  | GLCmd.blendEquationSeparateCmd _ _ => true
  | GLCmd.blendEquationCmd _ => true
  | _ => false

/-- Blend-equation commands among the events. -/
def isBlendEquationCmd : GLCmd → Bool
  | GLCmd.blendEquationSeparateCmd _ _ => true
  | GLCmd.blendEquationCmd _ => true
  | _ => false

/-- Primitive-draw commands among the events. -/
def isDrawCmd : GLCmd → Bool
  | GLCmd.drawArraysCmd _ _ _ => true
  | _ => false

/-- Number of missing-blend-equation warnings (`applyBlendMode`'s one-time
    log) in an event list. -/
def blendWarnCount (l : List GLCmd) : Nat :=
  (l.filter (fun c => c = GLCmd.warnBlendEquationUnavailable)).length

/-- How many more missing-blend-equation warnings the process may still emit:
    one before the static `warned` flag is set, none after. -/
def warnBudget (w : RTWorld) : Nat :=
  if w.warnedBlendUnavailable = true then 0 else 1

/-! ## Context identity tracker with one cache per target (for properties
relating several render targets sharing one context). -/

/-- Process state seen by `RenderTarget::setActive` with every target's cache
    in scope: the context-to-target map and, for each target id, the
    `enable` and `glStatesSet` flags of that target's `StatesCache`. -/
structure CtxTracker where
  map : Nat → Option Nat
  cacheEnable : Nat → Bool
  cacheGlStatesSet : Nat → Bool

/-- `RenderTargetImpl::isActive(id)` against an explicit context. -/
def trackerIsActive (t : CtxTracker) (ctx tid : Nat) : Bool :=
  match t.map ctx with
  | none => false
  | some v => if v = tid then true else false

/-- `RenderTarget::setActive` of target `tid` in context `ctx` (the function
    always returns true; only the state change is modelled). -/
def trackerSetActive (t : CtxTracker) (ctx tid : Nat) (active : Bool) :
    CtxTracker :=
  if active then
    match t.map ctx with
    | none =>
        { map := fun c => if c = ctx then some tid else t.map c,
          cacheEnable := fun i => if i = tid then false else t.cacheEnable i,
          cacheGlStatesSet := fun i =>
            if i = tid then false else t.cacheGlStatesSet i }
    | some v =>
        if v = tid then t
        else
          { map := fun c => if c = ctx then some tid else t.map c,
            cacheEnable := fun i => if i = tid then false else t.cacheEnable i,
            cacheGlStatesSet := t.cacheGlStatesSet }
  else
    { map := fun c => if c = ctx then none else t.map c,
      cacheEnable := fun i => if i = tid then false else t.cacheEnable i,
      cacheGlStatesSet := t.cacheGlStatesSet }

/-- The ensure-active pattern for target `tid` in context `ctx`:
    `isActive(id) || setActive(true)`. -/
def trackerActivate (t : CtxTracker) (ctx tid : Nat) : CtxTracker :=
  if trackerIsActive t ctx tid then t else trackerSetActive t ctx tid true

/-! ## Concrete instances used to instantiate the theorems below -/

/-- A concrete shader backend: three resolvable uniforms, three texture
    units, compilation failing exactly on the source text "bad". -/
def sampleEnv : ShaderEnv :=
  { shaderAvailable := true, geometryAvailable := false, maxTextureUnits := 3,
    loc := fun _ n =>
      if n = ("u1") then 1 else if n = ("u2") then 2
      else if n = ("u3") then 3 else -1,
    compileOk := fun _ c => decide (c ≠ ("bad")),
    linkOk := fun _ _ _ => true,
    newProgramHandle := 7 }

/-- A shader that was never (successfully) compiled. -/
def sampleShader0 : ShaderState :=
  { m_shaderProgram := 0, m_currentTexture := -1,
    m_textures := [], m_uniforms := [] }

/-- A shader holding a linked program with empty caches. -/
def sampleShader : ShaderState :=
  { m_shaderProgram := 5, m_currentTexture := -1,
    m_textures := [], m_uniforms := [] }

/-- A linked shader whose texture table already holds
    `maxTextureUnits - 1` entries (full, given `sampleEnv`). -/
def sampleShaderTexFull : ShaderState :=
  { m_shaderProgram := 5, m_currentTexture := -1,
    m_textures := [(1, 99), (2, 88)], m_uniforms := [] }

/-- A vertex at the given position. -/
def sampleVertex (x y : Rat) (col : Nat) : Vertex :=
  { position := (x, y), color := col, texCoords := (0, 0) }

/-- A warm state cache (baseline states pushed, cache valid). -/
def sampleCache : StatesCache :=
  { enable := true, glStatesSet := true, viewChanged := false,
    lastBlendMode := blendAlpha, lastTextureId := 0,
    texCoordsArrayEnabled := true, useVertexCache := false,
    vertexCache := List.replicate VertexCacheSize (sampleVertex 0 0 0) }

/-- The full-surface view. -/
def sampleView : View :=
  { viewport := { left := 0, top := 0, width := 1, height := 1 },
    transform := Transform.identity }

/-- A 100 by 50 target, id 9, active in context 0. -/
def sampleWorld : RTWorld :=
  { ctxMap := [(0, 9)], activeContext := 0, id := 9, sizeX := 100,
    sizeY := 50, view := sampleView, cache := sampleCache,
    warnedEquationFallback := false, warnedBlendUnavailable := false }

/-- A backend without the blend-subtract and blend-minmax extensions. -/
def sampleCaps : Caps :=
  { blendFuncSeparate := true, blendEquationSeparate := true,
    blendMinmax := false, blendSubtract := false, multitexture := true,
    shaderAvailable := true, vertexBufferAvailable := true }

/-- Exactly `VertexCacheSize` vertices. -/
def sampleVerts4 : List Vertex :=
  [sampleVertex 1 2 5, sampleVertex 3 4 6, sampleVertex 5 6 7,
   sampleVertex 7 8 8]

/-- One vertex more than `VertexCacheSize`. -/
def sampleVerts5 : List Vertex :=
  sampleVerts4 ++ [sampleVertex 9 10 9]

/-- Render states with a non-identity transform and default blending. -/
def sampleStates : RenderStates :=
  { transform := { a00 := 2, a01 := 0, a02 := 1, a10 := 0, a11 := 2, a12 := 1 },
    blendMode := blendAlpha, texture := none, shader := none }

/-- Render states requesting a non-additive (subtract) color equation. -/
def sampleStatesSub : RenderStates :=
  { transform := Transform.identity,
    blendMode := { blendAlpha with colorEquation := BlendEquation.subtract },
    texture := none, shader := none }

/-- A fresh tracker: no context tracks any target, every cache valid. -/
def sampleTracker : CtxTracker :=
  { map := fun _ => none, cacheEnable := fun _ => true,
    cacheGlStatesSet := fun _ => true }

/-! ## Library lemmas about the association-list primitives -/

theorem lookupA_cons {α β : Type} [DecidableEq α] (key k : α) (v : β)
    (l : List (α × β)) :
    lookupA ((k, v) :: l) key = if key = k then some v else lookupA l key :=
  rfl

theorem updateAssoc_length {α β : Type} [DecidableEq α] (l : List (α × β))
    (k : α) (v : β) : (updateAssoc l k v).length = l.length := by
  induction l with
  | nil => rfl
  | cons p rest ih =>
      obtain ⟨a, b⟩ := p
      simp only [updateAssoc]
      split <;> simp [ih]

theorem lookupA_updateAssoc_self {α β : Type} [DecidableEq α]
    (l : List (α × β)) (k : α) (v0 v : β) (h : lookupA l k = some v0) :
    lookupA (updateAssoc l k v) k = some v := by
  induction l with
  | nil => simp [lookupA] at h
  | cons p rest ih =>
      obtain ⟨a, b⟩ := p
      by_cases hk : k = a
      · simp [updateAssoc, lookupA, hk]
      · simp only [lookupA_cons, if_neg hk] at h
        simp [updateAssoc, lookupA, hk, Ne.symm hk, ih h]

theorem lookupA_append {α β : Type} [DecidableEq α] (xs ys : List (α × β))
    (k : α) :
    lookupA (xs ++ ys) k =
      match lookupA xs k with
      | some v => some v
      | none => lookupA ys k := by
  induction xs with
  | nil => simp [lookupA]
  | cons p rest ih =>
      obtain ⟨a, b⟩ := p
      by_cases hk : k = a <;> simp [lookupA, hk, ih]

theorem lookupA_eq_none {α β : Type} [DecidableEq α] (l : List (α × β))
    (k : α) (h : k ∉ l.map Prod.fst) : lookupA l k = none := by
  induction l with
  | nil => rfl
  | cons p rest ih =>
      obtain ⟨a, b⟩ := p
      simp only [List.map_cons, List.mem_cons, not_or] at h
      simp [lookupA, h.1, ih h.2]

theorem lookupA_reverse_of_nodup {α β : Type} [DecidableEq α]
    (l : List (α × β)) (hn : (l.map Prod.fst).Nodup) :
    ∀ p ∈ l, lookupA l.reverse p.1 = some p.2 := by
  induction l with
  | nil => intro p hp; simp at hp
  | cons q rest ih =>
      intro p hp
      obtain ⟨a, b⟩ := q
      simp only [List.map_cons, List.nodup_cons] at hn
      rw [List.reverse_cons, lookupA_append]
      rcases List.mem_cons.mp hp with h | h
      · subst h
        have hnone : lookupA rest.reverse (a, b).1 = none := by
          apply lookupA_eq_none
          rw [List.map_reverse, List.mem_reverse]
          exact hn.1
        rw [hnone]
        simp [lookupA]
      · rw [ih hn.2 p h]

/-! ## Helper lemmas about the shader embedding -/

theorem getUniformLocation_fst (env : ShaderEnv) (s : ShaderState)
    (name : String) :
    (getUniformLocation env s name).1 = resolvedLoc env s name := by
  simp only [getUniformLocation, resolvedLoc]
  cases lookupA s.m_uniforms name <;> rfl

theorem getUniformLocation_textures (env : ShaderEnv) (s : ShaderState)
    (name : String) :
    (getUniformLocation env s name).2.1.m_textures = s.m_textures := by
  simp only [getUniformLocation]
  cases lookupA s.m_uniforms name <;> rfl

theorem getUniformLocation_program (env : ShaderEnv) (s : ShaderState)
    (name : String) :
    (getUniformLocation env s name).2.1.m_shaderProgram = s.m_shaderProgram := by
  simp only [getUniformLocation]
  cases lookupA s.m_uniforms name <;> rfl

theorem getUniformLocation_capacity (env : ShaderEnv) (s : ShaderState)
    (name : String) :
    capacityErrCount (getUniformLocation env s name).2.2 = 0 := by
  simp only [getUniformLocation]
  cases lookupA s.m_uniforms name
  · simp only [capacityErrCount]
    split <;> rfl
  · rfl

theorem getUniformLocation_consistent (env : ShaderEnv) (s : ShaderState)
    (name : String) (P : Nat) (hs : s.m_shaderProgram = P)
    (h : ∀ n l, lookupA s.m_uniforms n = some l → l = env.loc P n) :
    ∀ n l, lookupA (getUniformLocation env s name).2.1.m_uniforms n = some l →
      l = env.loc P n := by
  intro n l
  simp only [getUniformLocation]
  cases hh : lookupA s.m_uniforms name
  · simp only [lookupA_cons]
    split
    · rename_i heq
      intro hsome
      rw [heq]
      rw [hs] at hsome
      exact (Option.some_inj.mp hsome).symm
    · exact h n l
  · exact h n l

theorem capacityErrCount_append (l1 l2 : List ShaderEvt) :
    capacityErrCount (l1 ++ l2) = capacityErrCount l1 + capacityErrCount l2 := by
  simp [capacityErrCount, List.filter_append]

/-- One successful texture-uniform insertion: fresh location, capacity not
    exceeded. -/
theorem setUniformTexture_insert (env : ShaderEnv) (s : ShaderState)
    (name : String) (tex : Nat)
    (hP : s.m_shaderProgram ≠ 0)
    (hloc : resolvedLoc env s name ≠ -1)
    (hnone : lookupA s.m_textures (resolvedLoc env s name) = none)
    (hcap : ¬ s.m_textures.length + 1 ≥ env.maxTextureUnits) :
    (setUniformTexture env s name tex).1.m_textures
        = (resolvedLoc env s name, tex) :: s.m_textures ∧
    (setUniformTexture env s name tex).1.m_shaderProgram = s.m_shaderProgram ∧
    (setUniformTexture env s name tex).1.m_uniforms
        = (getUniformLocation env s name).2.1.m_uniforms ∧
    capacityErrCount (setUniformTexture env s name tex).2 = 0 := by
  refine ⟨?_, ?_, ?_, ?_⟩ <;>
    simp only [setUniformTexture, if_pos hP, getUniformLocation_fst,
      getUniformLocation_textures, if_pos hloc, hnone, if_neg hcap,
      getUniformLocation_program, getUniformLocation_capacity]

/-- A texture-uniform request for a fresh location that exceeds the reserve:
    nothing is recorded and the capacity error is logged. -/
theorem setUniformTexture_capacity_fail (env : ShaderEnv) (s : ShaderState)
    (name : String) (tex : Nat)
    (hP : s.m_shaderProgram ≠ 0)
    (hloc : resolvedLoc env s name ≠ -1)
    (hnone : lookupA s.m_textures (resolvedLoc env s name) = none)
    (hcap : s.m_textures.length + 1 ≥ env.maxTextureUnits) :
    (setUniformTexture env s name tex).1.m_textures = s.m_textures ∧
    capacityErrCount (setUniformTexture env s name tex).2 = 1 := by
  refine ⟨?_, ?_⟩ <;>
    simp only [setUniformTexture, if_pos hP, getUniformLocation_fst,
      getUniformLocation_textures, if_pos hloc, hnone, if_pos hcap,
      capacityErrCount_append, getUniformLocation_capacity]
  rfl

theorem stageStep_fst (env : ShaderEnv) (k : StageKind) (prog : Nat)
    (code : Option String) :
    (stageStep env k prog code).1 = stageOk env k code := by
  cases code
  · rfl
  · simp only [stageStep, stageOk]
    split <;> simp [*]

/-- After the two availability guards, `compile` always leaves the object
    with empty caches; the resulting handle is the fresh program exactly when
    every stage compiled and the program linked, and `0` otherwise.  The
    boolean result equals `buildOk`. -/
theorem compile_fst_state (env : ShaderEnv) (s : ShaderState)
    (vs gs fs : Option String) (hav : env.shaderAvailable = true)
    (hg : gs.isSome = true → env.geometryAvailable = true) :
    (compile env s vs gs fs).1 = buildOk env vs gs fs ∧
    (compile env s vs gs fs).2.1 =
      { m_shaderProgram :=
          if buildOk env vs gs fs then env.newProgramHandle else 0,
        m_currentTexture := -1, m_textures := [], m_uniforms := [] } := by
  have hguard : ¬ (gs.isSome ∧ env.geometryAvailable = false) := by
    rintro ⟨h1, h2⟩
    rw [hg h1] at h2
    exact Bool.noConfusion h2
  by_cases hv : stageOk env StageKind.vertexStage vs <;>
    by_cases hgk : stageOk env StageKind.geometryStage gs <;>
    by_cases hf : stageOk env StageKind.fragmentStage fs <;>
    by_cases hl : env.linkOk vs gs fs = true <;>
    simp [compile, hav, hguard, stageStep_fst, buildOk, hv, hgk, hf, hl]

/-- Past the availability guards, a recompile of an object holding a program
    destroys that program before anything else. -/
theorem compile_destroys_old (env : ShaderEnv) (s : ShaderState)
    (vs gs fs : Option String) (hav : env.shaderAvailable = true)
    (hg : gs.isSome = true → env.geometryAvailable = true)
    (hold : s.m_shaderProgram ≠ 0) :
    ShaderEvt.deleteProgram s.m_shaderProgram ∈ (compile env s vs gs fs).2.2 := by
  have hguard : ¬ (gs.isSome ∧ env.geometryAvailable = false) := by
    rintro ⟨h1, h2⟩
    rw [hg h1] at h2
    exact Bool.noConfusion h2
  by_cases hv : (stageStep env StageKind.vertexStage env.newProgramHandle vs).1 = false <;>
    by_cases hgk : (stageStep env StageKind.geometryStage env.newProgramHandle gs).1 = false <;>
    by_cases hf : (stageStep env StageKind.fragmentStage env.newProgramHandle fs).1 = false <;>
    by_cases hl : env.linkOk vs gs fs = false <;>
    simp [compile, hav, hguard, hold, hv, hgk, hf, hl]

/-! ## Claim theorems: shader subsystem -/

/-- C9: every uniform-setting operation on a shader whose program handle is
    `0` is a complete no-op: state unchanged (no cache or table entry added)
    and no events at all (no GL call, no binding change, no log). -/
theorem c9_setUniform_noop_without_program (env : ShaderEnv) (bound : Nat)
    (s : ShaderState) (name : String) (x : Rat) (tex : Nat)
    (h : s.m_shaderProgram = 0) :
    setUniformFloat env s bound name x = (s, bound, []) ∧
    setUniformTexture env s name tex = (s, []) ∧
    setUniformCurrentTexture env s name = (s, []) := by
  refine ⟨?_, ?_, ?_⟩ <;>
    simp [setUniformFloat, setUniformTexture, setUniformCurrentTexture, h]

theorem c9_witness :
    sampleShader0.m_shaderProgram = 0 ∧
    (setUniformFloat sampleEnv sampleShader0 3 ("u1") 1
        = (sampleShader0, 3, []) ∧
      setUniformTexture sampleEnv sampleShader0 ("u1") 5
        = (sampleShader0, []) ∧
      setUniformCurrentTexture sampleEnv sampleShader0 ("u1")
        = (sampleShader0, [])) :=
  ⟨rfl, c9_setUniform_noop_without_program sampleEnv 3 sampleShader0 ("u1") 1 5 rfl⟩

/-- C10: a texture-uniform request whose resolved location is already present
    in the texture table replaces the referenced texture in place: the table
    keeps its shape and size, the entry now references the new texture, and
    no capacity error is possible regardless of the table's size relative to
    the unit limit. -/
theorem c10_texture_replacement_in_place (env : ShaderEnv) (s : ShaderState)
    (name : String) (tx old : Nat)
    (hprog : s.m_shaderProgram ≠ 0)
    (hl : resolvedLoc env s name ≠ -1)
    (hin : lookupA s.m_textures (resolvedLoc env s name) = some old) :
    (setUniformTexture env s name tx).1.m_textures
      = updateAssoc s.m_textures (resolvedLoc env s name) tx ∧
    lookupA (setUniformTexture env s name tx).1.m_textures
      (resolvedLoc env s name) = some tx ∧
    (setUniformTexture env s name tx).1.m_textures.length
      = s.m_textures.length ∧
    capacityErrCount (setUniformTexture env s name tx).2 = 0 := by
  have h1 : (setUniformTexture env s name tx).1.m_textures
      = updateAssoc s.m_textures (resolvedLoc env s name) tx := by
    simp only [setUniformTexture, if_pos hprog, getUniformLocation_fst,
      getUniformLocation_textures, if_pos hl, hin]
  refine ⟨h1, ?_, ?_, ?_⟩
  · rw [h1]
    exact lookupA_updateAssoc_self _ _ _ _ hin
  · rw [h1, updateAssoc_length]
  · simp only [setUniformTexture, if_pos hprog, getUniformLocation_fst,
      getUniformLocation_textures, if_pos hl, hin,
      getUniformLocation_capacity]

theorem c10_witness :
    sampleShaderTexFull.m_shaderProgram ≠ 0 ∧
    resolvedLoc sampleEnv sampleShaderTexFull ("u1") ≠ -1 ∧
    lookupA sampleShaderTexFull.m_textures
      (resolvedLoc sampleEnv sampleShaderTexFull ("u1")) = some 99 ∧
    ((setUniformTexture sampleEnv sampleShaderTexFull ("u1") 55).1.m_textures
        = updateAssoc sampleShaderTexFull.m_textures
          (resolvedLoc sampleEnv sampleShaderTexFull ("u1")) 55 ∧
      lookupA (setUniformTexture sampleEnv sampleShaderTexFull ("u1") 55).1.m_textures
        (resolvedLoc sampleEnv sampleShaderTexFull ("u1")) = some 55 ∧
      (setUniformTexture sampleEnv sampleShaderTexFull ("u1") 55).1.m_textures.length
        = sampleShaderTexFull.m_textures.length ∧
      capacityErrCount (setUniformTexture sampleEnv sampleShaderTexFull ("u1") 55).2 = 0) :=
  ⟨by decide, by decide, by decide,
    c10_texture_replacement_in_place sampleEnv sampleShaderTexFull ("u1") 55 99
      (by decide) (by decide) (by decide)⟩

/-- C5: the first lookup of a uniform name queries the backend exactly once
    and memoizes the answer (including `-1`), logging the missing-uniform
    diagnostic exactly when the name is not found; a subsequent lookup of the
    same name returns the memoized value with no backend query, no log and no
    state change; and any `compile` call that passes the availability guards
    resets the memo table. -/
theorem c5_uniform_location_memoization (env : ShaderEnv) (s : ShaderState)
    (name : String) (h : lookupA s.m_uniforms name = none) :
    (getUniformLocation env s name).1 = env.loc s.m_shaderProgram name ∧
    queryCount (getUniformLocation env s name).2.2 = 1 ∧
    (env.loc s.m_shaderProgram name = -1 →
      notFoundLogCount (getUniformLocation env s name).2.2 = 1) ∧
    (env.loc s.m_shaderProgram name ≠ -1 →
      notFoundLogCount (getUniformLocation env s name).2.2 = 0) ∧
    lookupA (getUniformLocation env s name).2.1.m_uniforms name
      = some (env.loc s.m_shaderProgram name) ∧
    getUniformLocation env (getUniformLocation env s name).2.1 name
      = (env.loc s.m_shaderProgram name,
         (getUniformLocation env s name).2.1, []) ∧
    (∀ (s2 : ShaderState) (vsrc gsrc fsrc : Option String),
      env.shaderAvailable = true →
      (gsrc.isSome = true → env.geometryAvailable = true) →
      (compile env s2 vsrc gsrc fsrc).2.1.m_uniforms = []) := by
  refine ⟨?_, ?_, ?_, ?_, ?_, ?_, ?_⟩
  · simp [getUniformLocation, h]
  · by_cases hm : env.loc s.m_shaderProgram name = -1 <;>
      simp [getUniformLocation, h, hm, queryCount]
  · intro hm
    simp [getUniformLocation, h, hm, notFoundLogCount]
  · intro hm
    simp [getUniformLocation, h, hm, notFoundLogCount]
  · simp [getUniformLocation, h, lookupA_cons]
  · simp [getUniformLocation, h, lookupA_cons]
  · intro s2 vsrc gsrc fsrc hav hg
    rw [(compile_fst_state env s2 vsrc gsrc fsrc hav hg).2]

theorem c5_witness :
    lookupA sampleShader.m_uniforms ("nope") = none ∧
    ((getUniformLocation sampleEnv sampleShader ("nope")).1
        = sampleEnv.loc sampleShader.m_shaderProgram ("nope") ∧
      queryCount (getUniformLocation sampleEnv sampleShader ("nope")).2.2 = 1 ∧
      (sampleEnv.loc sampleShader.m_shaderProgram ("nope") = -1 →
        notFoundLogCount
          (getUniformLocation sampleEnv sampleShader ("nope")).2.2 = 1) ∧
      (sampleEnv.loc sampleShader.m_shaderProgram ("nope") ≠ -1 →
        notFoundLogCount
          (getUniformLocation sampleEnv sampleShader ("nope")).2.2 = 0) ∧
      lookupA (getUniformLocation sampleEnv sampleShader ("nope")).2.1.m_uniforms
        ("nope") = some (sampleEnv.loc sampleShader.m_shaderProgram ("nope")) ∧
      getUniformLocation sampleEnv
        (getUniformLocation sampleEnv sampleShader ("nope")).2.1 ("nope")
        = (sampleEnv.loc sampleShader.m_shaderProgram ("nope"),
           (getUniformLocation sampleEnv sampleShader ("nope")).2.1, []) ∧
      (∀ (s2 : ShaderState) (vsrc gsrc fsrc : Option String),
        sampleEnv.shaderAvailable = true →
        (gsrc.isSome = true → sampleEnv.geometryAvailable = true) →
        (compile sampleEnv s2 vsrc gsrc fsrc).2.1.m_uniforms = [])) :=
  ⟨rfl, c5_uniform_location_memoization sampleEnv sampleShader ("nope") rfl⟩

/-- Folding texture-uniform requests whose locations are fresh, valid,
    pairwise distinct and within capacity records every binding (newest
    first), preserves the program and the location-cache consistency, and
    logs no capacity error. -/
theorem setTexturesFold_success (env : ShaderEnv) (P : Nat) (hP : P ≠ 0)
    (ns : List (String × Nat)) :
    ∀ (s : ShaderState),
    s.m_shaderProgram = P →
    (∀ n l, lookupA s.m_uniforms n = some l → l = env.loc P n) →
    (ns.map (fun p => env.loc P p.1)).Nodup →
    (∀ p ∈ ns, env.loc P p.1 ≠ -1) →
    (∀ p ∈ ns, lookupA s.m_textures (env.loc P p.1) = none) →
    s.m_textures.length + ns.length + 1 ≤ env.maxTextureUnits →
    (setTexturesFold env ns s).1.m_shaderProgram = P ∧
    (setTexturesFold env ns s).1.m_textures
      = (ns.map (fun p => (env.loc P p.1, p.2))).reverse ++ s.m_textures ∧
    (∀ n l, lookupA (setTexturesFold env ns s).1.m_uniforms n = some l →
      l = env.loc P n) ∧
    capacityErrCount (setTexturesFold env ns s).2 = 0 := by
  induction ns with
  | nil =>
      intro s hs hc _ _ _ _
      exact ⟨hs, by simp [setTexturesFold], hc, rfl⟩
  | cons p rest ih =>
      intro s hs hc hnd hval htex hcap
      have hresolved : resolvedLoc env s p.1 = env.loc P p.1 := by
        unfold resolvedLoc
        cases hh : lookupA s.m_uniforms p.1 with
        | none => rw [hs]
        | some v => exact hc p.1 v hh
      have hPs : s.m_shaderProgram ≠ 0 := by rw [hs]; exact hP
      have hv : resolvedLoc env s p.1 ≠ -1 := by
        rw [hresolved]; exact hval p (by simp)
      have hn : lookupA s.m_textures (resolvedLoc env s p.1) = none := by
        rw [hresolved]; exact htex p (by simp)
      have hcp : ¬ s.m_textures.length + 1 ≥ env.maxTextureUnits := by
        simp only [List.length_cons] at hcap
        omega
      obtain ⟨ht, hpr, hu, hcnt⟩ :=
        setUniformTexture_insert env s p.1 p.2 hPs hv hn hcp
      rw [List.map_cons] at hnd
      have hnds := List.nodup_cons.mp hnd
      have hs1P : (setUniformTexture env s p.1 p.2).1.m_shaderProgram = P := by
        rw [hpr, hs]
      have hs1c : ∀ n l,
          lookupA (setUniformTexture env s p.1 p.2).1.m_uniforms n = some l →
          l = env.loc P n := by
        intro n l hl
        rw [hu] at hl
        exact getUniformLocation_consistent env s p.1 P hs hc n l hl
      have htex' : ∀ q ∈ rest,
          lookupA (setUniformTexture env s p.1 p.2).1.m_textures
            (env.loc P q.1) = none := by
        intro q hq
        rw [ht, hresolved, lookupA_cons, if_neg, htex q (by simp [hq])]
        intro heq
        exact hnds.1 (heq ▸ List.mem_map_of_mem _ hq)
      have hcap' : (setUniformTexture env s p.1 p.2).1.m_textures.length
          + rest.length + 1 ≤ env.maxTextureUnits := by
        rw [ht]
        simp only [List.length_cons] at hcap ⊢
        omega
      obtain ⟨r1, r2, r3, r4⟩ := ih (setUniformTexture env s p.1 p.2).1 hs1P
        hs1c hnds.2 (fun q hq => hval q (by simp [hq])) htex' hcap'
      refine ⟨?_, ?_, ?_, ?_⟩
      · simpa only [setTexturesFold] using r1
      · simp only [setTexturesFold]
        rw [r2, ht, hresolved]
        simp [List.reverse_cons, List.append_assoc]
      · simpa only [setTexturesFold] using r3
      · simp only [setTexturesFold, capacityErrCount_append, hcnt, r4]

/-- C2: with a backend reporting `maxTextureUnits = N`, starting from a
    freshly compiled shader, `N - 1` texture-uniform requests with distinct
    valid locations are all recorded (no error); the request for an `N`-th
    distinct valid location logs exactly one capacity error and records
    nothing, leaving the table and its size unchanged. -/
theorem c2_texture_unit_capacity (env : ShaderEnv) (s : ShaderState)
    (ns : List (String × Nat)) (nm : String) (tx : Nat)
    (hprog : s.m_shaderProgram ≠ 0)
    (huni : s.m_uniforms = []) (htex : s.m_textures = [])
    (hlen : ns.length + 1 = env.maxTextureUnits)
    (hnd : (ns.map (fun p => env.loc s.m_shaderProgram p.1)).Nodup)
    (hval : ∀ p ∈ ns, env.loc s.m_shaderProgram p.1 ≠ -1)
    (hnm : env.loc s.m_shaderProgram nm ≠ -1)
    (hfresh : env.loc s.m_shaderProgram nm
      ∉ ns.map (fun p => env.loc s.m_shaderProgram p.1)) :
    (setTexturesFold env ns s).1.m_textures
      = (ns.map (fun p => (env.loc s.m_shaderProgram p.1, p.2))).reverse ∧
    (setTexturesFold env ns s).1.m_textures.length = ns.length ∧
    (∀ p ∈ ns, lookupA (setTexturesFold env ns s).1.m_textures
        (env.loc s.m_shaderProgram p.1) = some p.2) ∧
    capacityErrCount (setTexturesFold env ns s).2 = 0 ∧
    (setUniformTexture env (setTexturesFold env ns s).1 nm tx).1.m_textures
      = (setTexturesFold env ns s).1.m_textures ∧
    capacityErrCount
      (setUniformTexture env (setTexturesFold env ns s).1 nm tx).2 = 1 := by
  obtain ⟨r1, r2, r3, r4⟩ := setTexturesFold_success env s.m_shaderProgram
    hprog ns s rfl
    (by intro n l hl; rw [huni] at hl; exact absurd hl (by simp [lookupA]))
    hnd hval
    (by intro p hp; rw [htex]; rfl)
    (by rw [htex]; simpa using hlen.le)
  rw [htex, List.append_nil] at r2
  have hlen2 : (setTexturesFold env ns s).1.m_textures.length = ns.length := by
    rw [r2]
    simp
  have hkeys : ((ns.map (fun p => (env.loc s.m_shaderProgram p.1, p.2))).map
      Prod.fst) = ns.map (fun p => env.loc s.m_shaderProgram p.1) := by
    rw [List.map_map]
    rfl
  have hlook : ∀ p ∈ ns, lookupA (setTexturesFold env ns s).1.m_textures
      (env.loc s.m_shaderProgram p.1) = some p.2 := by
    intro p hp
    rw [r2]
    exact lookupA_reverse_of_nodup _ (by rw [hkeys]; exact hnd) _
      (List.mem_map_of_mem _ hp)
  have hres : resolvedLoc env (setTexturesFold env ns s).1 nm
      = env.loc s.m_shaderProgram nm := by
    unfold resolvedLoc
    cases hh : lookupA (setTexturesFold env ns s).1.m_uniforms nm with
    | none => rw [r1]
    | some v => exact r3 nm v hh
  have hnone : lookupA (setTexturesFold env ns s).1.m_textures
      (resolvedLoc env (setTexturesFold env ns s).1 nm) = none := by
    rw [hres, r2]
    apply lookupA_eq_none
    rw [List.map_reverse, List.mem_reverse, hkeys]
    exact hfresh
  obtain ⟨f1, f2⟩ := setUniformTexture_capacity_fail env
    (setTexturesFold env ns s).1 nm tx
    (by rw [r1]; exact hprog)
    (by rw [hres]; exact hnm)
    hnone
    (by rw [hlen2]; omega)
  exact ⟨r2, hlen2, hlook, r4, f1, f2⟩

theorem c2_witness :
    sampleShader.m_shaderProgram ≠ 0 ∧
    sampleShader.m_uniforms = [] ∧
    sampleShader.m_textures = [] ∧
    ([(("u1"), 11), (("u2"), 22)] : List (String × Nat)).length + 1
      = sampleEnv.maxTextureUnits ∧
    (([(("u1"), 11), (("u2"), 22)] : List (String × Nat)).map
      (fun p => sampleEnv.loc sampleShader.m_shaderProgram p.1)).Nodup ∧
    ((setTexturesFold sampleEnv [(("u1"), 11), (("u2"), 22)] sampleShader).1.m_textures
        = (([(("u1"), 11), (("u2"), 22)] : List (String × Nat)).map
          (fun p => (sampleEnv.loc sampleShader.m_shaderProgram p.1, p.2))).reverse ∧
      (setTexturesFold sampleEnv [(("u1"), 11), (("u2"), 22)] sampleShader).1.m_textures.length
        = ([(("u1"), 11), (("u2"), 22)] : List (String × Nat)).length ∧
      (∀ p ∈ ([(("u1"), 11), (("u2"), 22)] : List (String × Nat)),
        lookupA (setTexturesFold sampleEnv [(("u1"), 11), (("u2"), 22)] sampleShader).1.m_textures
          (sampleEnv.loc sampleShader.m_shaderProgram p.1) = some p.2) ∧
      capacityErrCount
        (setTexturesFold sampleEnv [(("u1"), 11), (("u2"), 22)] sampleShader).2 = 0 ∧
      (setUniformTexture sampleEnv
          (setTexturesFold sampleEnv [(("u1"), 11), (("u2"), 22)] sampleShader).1
          ("u3") 33).1.m_textures
        = (setTexturesFold sampleEnv [(("u1"), 11), (("u2"), 22)] sampleShader).1.m_textures ∧
      capacityErrCount
        (setUniformTexture sampleEnv
          (setTexturesFold sampleEnv [(("u1"), 11), (("u2"), 22)] sampleShader).1
          ("u3") 33).2 = 1) :=
  ⟨by decide, rfl, rfl, rfl, by decide,
    c2_texture_unit_capacity sampleEnv sampleShader
      [(("u1"), 11), (("u2"), 22)] ("u3") 33
      (by decide) rfl rfl rfl (by decide) (by decide) (by decide) (by decide)⟩

/-- C6: a recompile of a shader holding a linked program, with source that
    fails stage compilation or linking, returns false, has already destroyed
    the prior program, leaves the uniform-location cache, texture table and
    current-texture slot cleared, and leaves `getNativeHandle() = 0` (the
    prior program is not restored). -/
theorem c6_no_restore_on_failed_recompile (env : ShaderEnv) (s : ShaderState)
    (vs gs fs : Option String)
    (hold : s.m_shaderProgram ≠ 0)
    (hav : env.shaderAvailable = true)
    (hg : gs.isSome = true → env.geometryAvailable = true)
    (hfail : buildOk env vs gs fs = false) :
    (compile env s vs gs fs).1 = false ∧
    getNativeHandle (compile env s vs gs fs).2.1 = 0 ∧
    (compile env s vs gs fs).2.1.m_uniforms = [] ∧
    (compile env s vs gs fs).2.1.m_textures = [] ∧
    (compile env s vs gs fs).2.1.m_currentTexture = -1 ∧
    ShaderEvt.deleteProgram s.m_shaderProgram ∈ (compile env s vs gs fs).2.2 := by
  obtain ⟨hres, hstate⟩ := compile_fst_state env s vs gs fs hav hg
  refine ⟨hres.trans hfail, ?_, ?_, ?_, ?_,
    compile_destroys_old env s vs gs fs hav hg hold⟩ <;>
    simp [getNativeHandle, hstate, hfail]

theorem c6_witness :
    sampleShader.m_shaderProgram ≠ 0 ∧
    sampleEnv.shaderAvailable = true ∧
    buildOk sampleEnv (some ("v")) none (some ("bad")) = false ∧
    ((compile sampleEnv sampleShader (some ("v")) none (some ("bad"))).1 = false ∧
      getNativeHandle
        (compile sampleEnv sampleShader (some ("v")) none (some ("bad"))).2.1 = 0 ∧
      (compile sampleEnv sampleShader (some ("v")) none (some ("bad"))).2.1.m_uniforms = [] ∧
      (compile sampleEnv sampleShader (some ("v")) none (some ("bad"))).2.1.m_textures = [] ∧
      (compile sampleEnv sampleShader (some ("v")) none (some ("bad"))).2.1.m_currentTexture = -1 ∧
      ShaderEvt.deleteProgram sampleShader.m_shaderProgram
        ∈ (compile sampleEnv sampleShader (some ("v")) none (some ("bad"))).2.2) :=
  ⟨by decide, rfl, by decide,
    c6_no_restore_on_failed_recompile sampleEnv sampleShader
      (some ("v")) none (some ("bad")) (by decide) rfl (by decide) (by decide)⟩

/-! ## Claim theorems: context identity tracker -/

/-- C1: for distinct targets `A ≠ B` and a context `ctx` not yet tracked,
    after `activate(A, ctx); activate(B, ctx)` the tracker entry for `ctx`
    holds `B`, target `A`'s cache-valid flag is false (so the third
    activation finds it false on entry) and `isActive(A)` is false; the third
    `activate(A, ctx)` therefore runs `setActive(true)`, takes the
    entry-exists-with-different-id branch (overwriting `B` with `A`) and
    leaves `A`'s cache-valid flag false, forcing full state reapplication on
    `A`'s next draw. -/
theorem c1_context_switch_invalidation (t : CtxTracker) (ctx A B : Nat)
    (hAB : A ≠ B) (hfresh : t.map ctx = none) :
    (trackerActivate t ctx A).map ctx = some A ∧
    (trackerActivate (trackerActivate t ctx A) ctx B).map ctx = some B ∧
    (trackerActivate (trackerActivate t ctx A) ctx B).cacheEnable A = false ∧
    trackerIsActive (trackerActivate (trackerActivate t ctx A) ctx B) ctx A
      = false ∧
    (trackerActivate (trackerActivate (trackerActivate t ctx A) ctx B) ctx A).cacheEnable A
      = false ∧
    (trackerActivate (trackerActivate (trackerActivate t ctx A) ctx B) ctx A).map ctx
      = some A := by
  have h1 : trackerActivate t ctx A =
      { map := fun c => if c = ctx then some A else t.map c,
        cacheEnable := fun i => if i = A then false else t.cacheEnable i,
        cacheGlStatesSet := fun i =>
          if i = A then false else t.cacheGlStatesSet i } := by
    simp [trackerActivate, trackerIsActive, trackerSetActive, hfresh]
  rw [h1]
  have h2 : trackerActivate
      { map := fun c => if c = ctx then some A else t.map c,
        cacheEnable := fun i => if i = A then false else t.cacheEnable i,
        cacheGlStatesSet := fun i =>
          if i = A then false else t.cacheGlStatesSet i } ctx B =
      { map := fun c => if c = ctx then some B
          else if c = ctx then some A else t.map c,
        cacheEnable := fun i => if i = B then false
          else if i = A then false else t.cacheEnable i,
        cacheGlStatesSet := fun i =>
          if i = A then false else t.cacheGlStatesSet i } := by
    simp [trackerActivate, trackerIsActive, trackerSetActive, hAB, Ne.symm hAB]
  rw [h2]
  refine ⟨by simp, by simp, by simp [Ne.symm hAB, hAB], ?_, ?_, ?_⟩ <;>
    simp [trackerActivate, trackerIsActive, trackerSetActive, hAB, Ne.symm hAB]

theorem c1_witness :
    (1 : Nat) ≠ 2 ∧
    sampleTracker.map 0 = none ∧
    ((trackerActivate sampleTracker 0 1).map 0 = some 1 ∧
      (trackerActivate (trackerActivate sampleTracker 0 1) 0 2).map 0 = some 2 ∧
      (trackerActivate (trackerActivate sampleTracker 0 1) 0 2).cacheEnable 1
        = false ∧
      trackerIsActive (trackerActivate (trackerActivate sampleTracker 0 1) 0 2) 0 1
        = false ∧
      (trackerActivate (trackerActivate (trackerActivate sampleTracker 0 1) 0 2) 0 1).cacheEnable 1
        = false ∧
      (trackerActivate (trackerActivate (trackerActivate sampleTracker 0 1) 0 2) 0 1).map 0
        = some 1) :=
  ⟨by decide, rfl, c1_context_switch_invalidation sampleTracker 0 1 2 (by decide) rfl⟩

/-! ## Claim theorems: viewport rounding -/

/-- C8 counterexample: a 2-pixel-wide target and a view whose normalized
    viewport has `left = -5/8` give `0.5 + 2 * (-5/8) = -3/4`;
    `static_cast<int>` truncates it to `0`, while the claimed
    `floor(0.5 + width * left)` is `-1`. -/
theorem c8_viewport_rounding_counterexample :
    (getViewport 2 2 { left := -5/8, top := 0, width := 0, height := 0 }).left
      ≠ ⌊(1 : Rat)/2 + (2 : Rat) * (-5/8 : Rat)⌋ := by
  have hL : (getViewport 2 2
      { left := -5/8, top := 0, width := 0, height := 0 }).left = 0 := by
    have hneg : ¬ (0 : Rat) ≤ 1/2 + (2 : Nat) * (-5/8 : Rat) := by norm_num
    simp only [getViewport, castCppInt, if_neg hneg]
    norm_num
  rw [hL]
  norm_num

/-- C8 amended: each coordinate of `getViewport` is
    `static_cast<int>(0.5 + dimension * coordinate)`, truncation toward
    zero; this equals `floor(0.5 + dimension * coordinate)` (round to
    nearest, half up) whenever that quantity is nonnegative — in particular
    for all nonnegative viewport coordinates — but not for negative values,
    where the cast yields the ceiling instead. -/
theorem c8_viewport_rounding_amended (sx sy : Nat) (vp : FloatRect)
    (h1 : 0 ≤ 1/2 + (sx : Rat) * vp.left)
    (h2 : 0 ≤ 1/2 + (sy : Rat) * vp.top)
    (h3 : 0 ≤ 1/2 + (sx : Rat) * vp.width)
    (h4 : 0 ≤ 1/2 + (sy : Rat) * vp.height) :
    getViewport sx sy vp =
      { left := ⌊1/2 + (sx : Rat) * vp.left⌋,
        top := ⌊1/2 + (sy : Rat) * vp.top⌋,
        width := ⌊1/2 + (sx : Rat) * vp.width⌋,
        height := ⌊1/2 + (sy : Rat) * vp.height⌋ } := by
  have e : ∀ q : Rat, 0 ≤ q → castCppInt q = ⌊q⌋ := by
    intro q hq
    simp [castCppInt, hq]
  simp only [getViewport]
  rw [e _ h1, e _ h2, e _ h3, e _ h4]

theorem c8_witness :
    (0 ≤ (1 : Rat)/2 + (2 : Rat) * (1/4 : Rat) ∧
      0 ≤ (1 : Rat)/2 + (2 : Rat) * (0 : Rat) ∧
      0 ≤ (1 : Rat)/2 + (2 : Rat) * (1 : Rat) ∧
      0 ≤ (1 : Rat)/2 + (2 : Rat) * (1 : Rat)) ∧
    getViewport 2 2 { left := 1/4, top := 0, width := 1, height := 1 } =
      { left := ⌊(1 : Rat)/2 + (2 : Rat) * (1/4 : Rat)⌋,
        top := ⌊(1 : Rat)/2 + (2 : Rat) * (0 : Rat)⌋,
        width := ⌊(1 : Rat)/2 + (2 : Rat) * (1 : Rat)⌋,
        height := ⌊(1 : Rat)/2 + (2 : Rat) * (1 : Rat)⌋ } :=
  ⟨⟨by norm_num, by norm_num, by norm_num, by norm_num⟩,
    c8_viewport_rounding_amended 2 2 { left := 1/4, top := 0, width := 1, height := 1 }
      (by norm_num) (by norm_num) (by norm_num) (by norm_num)⟩

/-! ## Helper lemmas about the render-target embedding -/

theorem lookupA_assocSet_self {α β : Type} [DecidableEq α]
    (l : List (α × β)) (k : α) (v : β) :
    lookupA (assocSet l k v) k = some v := by
  induction l with
  | nil => simp [assocSet, lookupA]
  | cons p rest ih =>
      obtain ⟨a, b⟩ := p
      by_cases hk : k = a <;> simp [assocSet, lookupA, hk, ih]

theorem ensureActiveW_of_active (w : RTWorld) (h : isActiveW w = true) :
    ensureActiveW w = w := by
  simp [ensureActiveW, h]

theorem isActiveW_ensureActiveW (w : RTWorld) :
    isActiveW (ensureActiveW w) = true := by
  by_cases h : isActiveW w = true
  · rw [ensureActiveW_of_active w h, h]
  · simp only [ensureActiveW, h, if_false]
    unfold setActiveW
    cases hm : lookupA w.ctxMap w.activeContext with
    | none => simp [isActiveW, lookupA_assocSet_self]
    | some v =>
        by_cases hv : v = w.id
        · rw [isActiveW] at h
          rw [hm] at h
          simp [hv] at h
        · simp [hv, isActiveW, lookupA_assocSet_self]

theorem ensureActiveW_fields (w : RTWorld) :
    (ensureActiveW w).activeContext = w.activeContext ∧
    (ensureActiveW w).id = w.id ∧
    (ensureActiveW w).sizeX = w.sizeX ∧
    (ensureActiveW w).sizeY = w.sizeY ∧
    (ensureActiveW w).view = w.view ∧
    (ensureActiveW w).warnedEquationFallback = w.warnedEquationFallback ∧
    (ensureActiveW w).warnedBlendUnavailable = w.warnedBlendUnavailable ∧
    (ensureActiveW w).cache.vertexCache = w.cache.vertexCache ∧
    (ensureActiveW w).cache.lastBlendMode = w.cache.lastBlendMode ∧
    (ensureActiveW w).cache.lastTextureId = w.cache.lastTextureId ∧
    (ensureActiveW w).cache.texCoordsArrayEnabled
      = w.cache.texCoordsArrayEnabled ∧
    (ensureActiveW w).cache.useVertexCache = w.cache.useVertexCache ∧
    (ensureActiveW w).cache.viewChanged = w.cache.viewChanged := by
  by_cases h : isActiveW w = true
  · rw [ensureActiveW_of_active w h]
    exact ⟨rfl, rfl, rfl, rfl, rfl, rfl, rfl, rfl, rfl, rfl, rfl, rfl, rfl⟩
  · simp only [ensureActiveW, h, if_false]
    unfold setActiveW
    cases hm : lookupA w.ctxMap w.activeContext with
    | none => simp
    | some v => by_cases hv : v = w.id <;> simp [hv]

theorem applyBlendMode_fst_cache (caps : Caps) (mode : BlendMode)
    (w : RTWorld) :
    (applyBlendMode caps mode w).1.cache
      = { w.cache with lastBlendMode := mode } := rfl

theorem applyBlendMode_fst_fields (caps : Caps) (mode : BlendMode)
    (w : RTWorld) :
    (applyBlendMode caps mode w).1.ctxMap = w.ctxMap ∧
    (applyBlendMode caps mode w).1.activeContext = w.activeContext ∧
    (applyBlendMode caps mode w).1.id = w.id ∧
    (applyBlendMode caps mode w).1.sizeX = w.sizeX ∧
    (applyBlendMode caps mode w).1.sizeY = w.sizeY ∧
    (applyBlendMode caps mode w).1.view = w.view :=
  ⟨rfl, rfl, rfl, rfl, rfl, rfl⟩

theorem applyBlendMode_fst_warned (caps : Caps) (mode : BlendMode)
    (w : RTWorld) :
    (applyBlendMode caps mode w).1.warnedEquationFallback
      = (applyBlendModeAux caps mode w.warnedEquationFallback
          w.warnedBlendUnavailable).1 ∧
    (applyBlendMode caps mode w).1.warnedBlendUnavailable
      = (applyBlendModeAux caps mode w.warnedEquationFallback
          w.warnedBlendUnavailable).2.1 :=
  ⟨rfl, rfl⟩

theorem applyBlendMode_snd (caps : Caps) (mode : BlendMode) (w : RTWorld) :
    (applyBlendMode caps mode w).2
      = (applyBlendModeAux caps mode w.warnedEquationFallback
          w.warnedBlendUnavailable).2.2 := rfl

/-- When both equations of the mode are additive the warned flags are
    untouched (this covers `resetGLStates`'s application of `BlendAlpha`). -/
theorem applyBlendModeAux_add_flags (caps : Caps) (mode : BlendMode)
    (we wb : Bool)
    (hc : mode.colorEquation = BlendEquation.add)
    (ha : mode.alphaEquation = BlendEquation.add) :
    (applyBlendModeAux caps mode we wb).1 = we ∧
    (applyBlendModeAux caps mode we wb).2.1 = wb := by
  unfold applyBlendModeAux
  rw [hc, ha]
  simp only [equationToGlConstant]
  split
  · split <;> exact ⟨rfl, rfl⟩
  · simp

theorem applyTexture_fst (t : Option TextureRef) (w : RTWorld) :
    (applyTexture t w).1
      = { w with cache := { w.cache with lastTextureId := textureCacheId t } } :=
  rfl

theorem applyCurrentView_fst (w : RTWorld) :
    (applyCurrentView w).1
      = { w with cache := { w.cache with viewChanged := false } } := rfl

theorem resetGLStates_fst_cache (caps : Caps) (w : RTWorld) :
    (resetGLStates caps w).1.cache =
      { w.cache with
        enable := true, glStatesSet := true, viewChanged := true,
        lastBlendMode := blendAlpha, lastTextureId := 0,
        texCoordsArrayEnabled := true, useVertexCache := false } := by
  simp only [resetGLStates, applyTexture_fst, applyBlendMode_fst_cache]
  rw [(ensureActiveW_fields w).2.2.2.2.2.2.2.1]
  rfl

theorem resetGLStates_fst_fields (caps : Caps) (w : RTWorld) :
    (resetGLStates caps w).1.ctxMap = (ensureActiveW w).ctxMap ∧
    (resetGLStates caps w).1.activeContext = w.activeContext ∧
    (resetGLStates caps w).1.id = w.id ∧
    (resetGLStates caps w).1.sizeX = w.sizeX ∧
    (resetGLStates caps w).1.sizeY = w.sizeY ∧
    (resetGLStates caps w).1.view = w.view ∧
    (resetGLStates caps w).1.warnedEquationFallback
      = w.warnedEquationFallback ∧
    (resetGLStates caps w).1.warnedBlendUnavailable
      = w.warnedBlendUnavailable := by
  obtain ⟨f1, f2, f3, f4, f5, f6, f7, _⟩ := ensureActiveW_fields w
  obtain ⟨g1, g2⟩ := applyBlendModeAux_add_flags caps blendAlpha
    w.warnedEquationFallback w.warnedBlendUnavailable rfl rfl
  simp only [resetGLStates, applyTexture_fst]
  refine ⟨rfl, f1, f2, f3, f4, f5, ?_, ?_⟩ <;>
    simp [applyBlendMode, f6, f7, g1, g2]

theorem isActiveW_eq_of_fields (w w' : RTWorld) (h1 : w'.ctxMap = w.ctxMap)
    (h2 : w'.activeContext = w.activeContext) (h3 : w'.id = w.id) :
    isActiveW w' = isActiveW w := by
  unfold isActiveW
  rw [h1, h2, h3]

theorem glStatesStep_of_set (caps : Caps) (w : RTWorld)
    (h : w.cache.glStatesSet = true) : glStatesStep caps w = (w, []) := by
  simp [glStatesStep, h]

theorem glStatesStep_fst_glStatesSet (caps : Caps) (w : RTWorld) :
    (glStatesStep caps w).1.cache.glStatesSet = true := by
  unfold glStatesStep
  split
  · rw [resetGLStates_fst_cache]
  · rename_i h
    simpa using h

theorem glStatesStep_fst_vertexCache (caps : Caps) (w : RTWorld) :
    (glStatesStep caps w).1.cache.vertexCache = w.cache.vertexCache := by
  unfold glStatesStep
  split
  · rw [resetGLStates_fst_cache]
  · rfl

theorem glStatesStep_fst_warned (caps : Caps) (w : RTWorld) :
    (glStatesStep caps w).1.warnedEquationFallback
      = w.warnedEquationFallback ∧
    (glStatesStep caps w).1.warnedBlendUnavailable
      = w.warnedBlendUnavailable := by
  unfold glStatesStep
  split
  · exact ⟨(resetGLStates_fst_fields caps w).2.2.2.2.2.2.1,
      (resetGLStates_fst_fields caps w).2.2.2.2.2.2.2⟩
  · exact ⟨rfl, rfl⟩

theorem glStatesStep_fst_active (caps : Caps) (w : RTWorld)
    (h : isActiveW w = true) :
    (glStatesStep caps w).1.ctxMap = w.ctxMap ∧
    (glStatesStep caps w).1.activeContext = w.activeContext ∧
    (glStatesStep caps w).1.id = w.id := by
  unfold glStatesStep
  split
  · refine ⟨?_, (resetGLStates_fst_fields caps w).2.1,
      (resetGLStates_fst_fields caps w).2.2.1⟩
    rw [(resetGLStates_fst_fields caps w).1, ensureActiveW_of_active w h]
  · exact ⟨rfl, rfl, rfl⟩

theorem viewStep_fst_fields (w : RTWorld) :
    (viewStep w).1.cache.enable = w.cache.enable ∧
    (viewStep w).1.cache.glStatesSet = w.cache.glStatesSet ∧
    (viewStep w).1.cache.lastBlendMode = w.cache.lastBlendMode ∧
    (viewStep w).1.cache.lastTextureId = w.cache.lastTextureId ∧
    (viewStep w).1.cache.useVertexCache = w.cache.useVertexCache ∧
    (viewStep w).1.cache.texCoordsArrayEnabled
      = w.cache.texCoordsArrayEnabled ∧
    (viewStep w).1.cache.vertexCache = w.cache.vertexCache ∧
    (viewStep w).1.warnedEquationFallback = w.warnedEquationFallback ∧
    (viewStep w).1.warnedBlendUnavailable = w.warnedBlendUnavailable ∧
    (viewStep w).1.ctxMap = w.ctxMap ∧
    (viewStep w).1.activeContext = w.activeContext ∧
    (viewStep w).1.id = w.id := by
  unfold viewStep
  split <;> simp [applyCurrentView_fst]

theorem blendStep_fst_lastBlendMode (caps : Caps) (states : RenderStates)
    (w : RTWorld) :
    (blendStep caps states w).1.cache.lastBlendMode = states.blendMode := by
  unfold blendStep
  split
  · rw [applyBlendMode_fst_cache]
  · rename_i h
    push_neg at h
    exact h.2.symm

theorem blendStep_fst_fields (caps : Caps) (states : RenderStates)
    (w : RTWorld) :
    (blendStep caps states w).1.cache.enable = w.cache.enable ∧
    (blendStep caps states w).1.cache.glStatesSet = w.cache.glStatesSet ∧
    (blendStep caps states w).1.cache.viewChanged = w.cache.viewChanged ∧
    (blendStep caps states w).1.cache.lastTextureId
      = w.cache.lastTextureId ∧
    (blendStep caps states w).1.cache.useVertexCache
      = w.cache.useVertexCache ∧
    (blendStep caps states w).1.cache.texCoordsArrayEnabled
      = w.cache.texCoordsArrayEnabled ∧
    (blendStep caps states w).1.cache.vertexCache = w.cache.vertexCache ∧
    (blendStep caps states w).1.ctxMap = w.ctxMap ∧
    (blendStep caps states w).1.activeContext = w.activeContext ∧
    (blendStep caps states w).1.id = w.id := by
  unfold blendStep
  split <;> simp [applyBlendMode_fst_cache, applyBlendMode]

theorem blendStep_skip (caps : Caps) (states : RenderStates) (w : RTWorld)
    (hen : w.cache.enable = true)
    (hbm : states.blendMode = w.cache.lastBlendMode) :
    blendStep caps states w = (w, []) := by
  unfold blendStep
  rw [if_neg]
  push_neg
  exact ⟨by simp [hen], hbm⟩

theorem applyBlendModeAux_mem_func (caps : Caps) (mode : BlendMode)
    (we wb : Bool) :
    ∃ c ∈ (applyBlendModeAux caps mode we wb).2.2, isBlendCmd c = true := by
  unfold applyBlendModeAux
  by_cases hs : caps.blendFuncSeparate = true
  · refine ⟨GLCmd.blendFuncSeparateCmd
      (factorToGlConstant mode.colorSrcFactor)
      (factorToGlConstant mode.colorDstFactor)
      (factorToGlConstant mode.alphaSrcFactor)
      (factorToGlConstant mode.alphaDstFactor), ?_, rfl⟩
    simp only [hs, if_true]
    repeat' split
    all_goals simp_all
  · refine ⟨GLCmd.blendFuncCmd
      (factorToGlConstant mode.colorSrcFactor)
      (factorToGlConstant mode.colorDstFactor), ?_, rfl⟩
    simp only [hs, if_false]
    repeat' split
    all_goals simp_all

theorem blendStep_apply_mem (caps : Caps) (states : RenderStates)
    (w : RTWorld) (h : states.blendMode ≠ w.cache.lastBlendMode) :
    ∃ c ∈ (blendStep caps states w).2, isBlendCmd c = true := by
  unfold blendStep
  rw [if_pos (Or.inr h), applyBlendMode_snd]
  exact applyBlendModeAux_mem_func caps states.blendMode
    w.warnedEquationFallback w.warnedBlendUnavailable

theorem textureStep_fst_fields (states : RenderStates) (w : RTWorld) :
    (textureStep states w).1.cache.enable = w.cache.enable ∧
    (textureStep states w).1.cache.glStatesSet = w.cache.glStatesSet ∧
    (textureStep states w).1.cache.viewChanged = w.cache.viewChanged ∧
    (textureStep states w).1.cache.lastBlendMode = w.cache.lastBlendMode ∧
    (textureStep states w).1.cache.useVertexCache
      = w.cache.useVertexCache ∧
    (textureStep states w).1.cache.texCoordsArrayEnabled
      = w.cache.texCoordsArrayEnabled ∧
    (textureStep states w).1.cache.vertexCache = w.cache.vertexCache ∧
    (textureStep states w).1.warnedEquationFallback
      = w.warnedEquationFallback ∧
    (textureStep states w).1.warnedBlendUnavailable
      = w.warnedBlendUnavailable ∧
    (textureStep states w).1.ctxMap = w.ctxMap ∧
    (textureStep states w).1.activeContext = w.activeContext ∧
    (textureStep states w).1.id = w.id := by
  unfold textureStep
  split
  · simp [applyTexture_fst]
  · split <;> simp [applyTexture_fst]

theorem cleanupDraw_fst_fields (states : RenderStates) (w : RTWorld) :
    (cleanupDraw states w).1.cache.enable = true ∧
    (cleanupDraw states w).1.cache.glStatesSet = w.cache.glStatesSet ∧
    (cleanupDraw states w).1.cache.lastBlendMode = w.cache.lastBlendMode ∧
    (cleanupDraw states w).1.cache.vertexCache = w.cache.vertexCache ∧
    (cleanupDraw states w).1.warnedEquationFallback
      = w.warnedEquationFallback ∧
    (cleanupDraw states w).1.warnedBlendUnavailable
      = w.warnedBlendUnavailable ∧
    (cleanupDraw states w).1.ctxMap = w.ctxMap ∧
    (cleanupDraw states w).1.activeContext = w.activeContext ∧
    (cleanupDraw states w).1.id = w.id := by
  by_cases h1 : fboAttached states = true <;>
    simp [cleanupDraw, h1, applyTexture_fst]

theorem vertexCacheWrite_fst_fields (useVC : Bool) (t : Transform)
    (verts : List Vertex) (w : RTWorld) :
    (vertexCacheWrite useVC t verts w).cache.enable = w.cache.enable ∧
    (vertexCacheWrite useVC t verts w).cache.glStatesSet
      = w.cache.glStatesSet ∧
    (vertexCacheWrite useVC t verts w).cache.viewChanged
      = w.cache.viewChanged ∧
    (vertexCacheWrite useVC t verts w).cache.lastBlendMode
      = w.cache.lastBlendMode ∧
    (vertexCacheWrite useVC t verts w).cache.lastTextureId
      = w.cache.lastTextureId ∧
    (vertexCacheWrite useVC t verts w).cache.useVertexCache
      = w.cache.useVertexCache ∧
    (vertexCacheWrite useVC t verts w).cache.texCoordsArrayEnabled
      = w.cache.texCoordsArrayEnabled ∧
    (vertexCacheWrite useVC t verts w).warnedEquationFallback
      = w.warnedEquationFallback ∧
    (vertexCacheWrite useVC t verts w).warnedBlendUnavailable
      = w.warnedBlendUnavailable ∧
    (vertexCacheWrite useVC t verts w).ctxMap = w.ctxMap ∧
    (vertexCacheWrite useVC t verts w).activeContext = w.activeContext ∧
    (vertexCacheWrite useVC t verts w).id = w.id := by
  unfold vertexCacheWrite
  split <;> simp

/-! ## Event-shape lemmas used by the blend-related claims -/

theorem transformCmds_noBlend (useVC : Bool) (t : Transform) (w : RTWorld) :
    ∀ c ∈ transformCmds useVC t w, isBlendCmd c = false := by
  intro c hc
  unfold transformCmds applyTransformCmds at hc
  repeat' split at hc
  all_goals cases c <;> simp_all [isBlendCmd]

theorem viewStep_snd_noBlend (w : RTWorld) :
    ∀ c ∈ (viewStep w).2, isBlendCmd c = false := by
  intro c hc
  unfold viewStep applyCurrentView at hc
  split at hc
  all_goals cases c <;> simp_all [isBlendCmd]

theorem textureStep_snd_noBlend (states : RenderStates) (w : RTWorld) :
    ∀ c ∈ (textureStep states w).2, isBlendCmd c = false := by
  intro c hc
  unfold textureStep applyTexture at hc
  repeat' split at hc
  all_goals cases c <;> simp_all [isBlendCmd]

theorem cleanupDraw_snd_noBlend (states : RenderStates) (w : RTWorld) :
    ∀ c ∈ (cleanupDraw states w).2, isBlendCmd c = false := by
  intro c hc
  unfold cleanupDraw applyTexture at hc
  repeat' split at hc
  all_goals cases c <;> simp_all [isBlendCmd]

theorem clientStateCmds_noBlend (useVC etc : Bool) (w : RTWorld) :
    ∀ c ∈ clientStateCmds useVC etc w, isBlendCmd c = false := by
  intro c hc
  unfold clientStateCmds at hc
  repeat' split at hc
  all_goals cases c <;> simp_all [isBlendCmd]

/-- `setupDraw` in the steady state (cache valid, baseline states pushed):
    `lastBlendMode` always ends up equal to the requested mode; no
    blend-state command is issued when the requested mode equals the cached
    one; a blend command is issued when it differs. -/
theorem setupDraw_steady (caps : Caps) (uvc : Bool) (states : RenderStates)
    (w : RTWorld) (hen : w.cache.enable = true)
    (hgs : w.cache.glStatesSet = true) :
    (setupDraw caps uvc states w).1.cache.lastBlendMode = states.blendMode ∧
    (states.blendMode = w.cache.lastBlendMode →
      ∀ c ∈ (setupDraw caps uvc states w).2, isBlendCmd c = false) ∧
    (states.blendMode ≠ w.cache.lastBlendMode →
      ∃ c ∈ (setupDraw caps uvc states w).2, isBlendCmd c = true) ∧
    (setupDraw caps uvc states w).1.cache.enable = true ∧
    (setupDraw caps uvc states w).1.cache.glStatesSet = true ∧
    (setupDraw caps uvc states w).1.ctxMap = w.ctxMap ∧
    (setupDraw caps uvc states w).1.activeContext = w.activeContext ∧
    (setupDraw caps uvc states w).1.id = w.id := by
  obtain ⟨v1, v2, v3, v4, v5, v6, v7, v8, v9, v10, v11, v12⟩ :=
    viewStep_fst_fields w
  obtain ⟨b1, b2, b3, b4, b5, b6, b7, b8, b9, b10⟩ :=
    blendStep_fst_fields caps states (viewStep w).1
  obtain ⟨t1, t2, t3, t4, t5, t6, t7, t8, t9, t10, t11, t12⟩ :=
    textureStep_fst_fields states (blendStep caps states (viewStep w).1).1
  have hsetup : setupDraw caps uvc states w =
      ((textureStep states (blendStep caps states (viewStep w).1).1).1,
        [] ++ [] ++ transformCmds uvc states.transform w
          ++ (viewStep w).2 ++ (blendStep caps states (viewStep w).1).2
          ++ (textureStep states (blendStep caps states (viewStep w).1).1).2
          ++ (if states.shader.isSome then [GLCmd.shaderBind states.shader]
              else [])) := by
    unfold setupDraw
    rw [glStatesStep_of_set caps w hgs]
    simp [hen]
  rw [hsetup]
  refine ⟨?_, ?_, ?_, ?_, ?_, ?_, ?_, ?_⟩
  · rw [t4, blendStep_fst_lastBlendMode]
  · intro hbm c hc
    have hskip : blendStep caps states (viewStep w).1 = ((viewStep w).1, []) :=
      blendStep_skip caps states (viewStep w).1 (v1.trans hen)
        (hbm.trans v3.symm)
    rw [hskip] at hc
    simp only [List.nil_append, List.append_assoc, List.mem_append] at hc
    rcases hc with hc | hc | hc | hc
    · exact transformCmds_noBlend uvc states.transform w c hc
    · exact viewStep_snd_noBlend w c hc
    · exact textureStep_snd_noBlend states _ c hc
    · revert hc
      split <;> intro hc <;> simp_all [isBlendCmd]
  · intro hbm
    obtain ⟨c, hc, hcb⟩ := blendStep_apply_mem caps states (viewStep w).1
      (by rw [v3]; exact hbm)
    exact ⟨c, by simp [hc], hcb⟩
  · rw [t1, b1, v1, hen]
  · rw [t2, b2, v2, hgs]
  · rw [t10, b8, v10]
  · rw [t11, b9, v11]
  · rw [t12, b10, v12]

/-- `draw` with a non-null, non-empty vertex array runs `drawCore`. -/
theorem draw_eq_core (caps : Caps) (w : RTWorld) (verts : List Vertex)
    (ptype : PrimitiveType) (states : RenderStates) (hne : verts ≠ []) :
    draw caps w (some verts) ptype states
      = drawCore caps w verts ptype states := by
  simp only [draw]
  rw [if_neg (by simpa using hne)]

/-- `drawCore` written out with its intermediate states named (definitional
    unfolding). -/
theorem drawCore_eq (caps : Caps) (w : RTWorld) (verts : List Vertex)
    (ptype : PrimitiveType) (states : RenderStates) :
    drawCore caps w verts ptype states =
      ({ (cleanupDraw states (setupDraw caps
            (decide (verts.length ≤ VertexCacheSize)) states
            (vertexCacheWrite (decide (verts.length ≤ VertexCacheSize))
              states.transform verts (ensureActiveW w))).1).1 with
         cache := { (cleanupDraw states (setupDraw caps
            (decide (verts.length ≤ VertexCacheSize)) states
            (vertexCacheWrite (decide (verts.length ≤ VertexCacheSize))
              states.transform verts (ensureActiveW w))).1).1.cache with
           useVertexCache := decide (verts.length ≤ VertexCacheSize),
           texCoordsArrayEnabled :=
             states.texture.isSome || states.shader.isSome } },
       (setupDraw caps (decide (verts.length ≤ VertexCacheSize)) states
          (vertexCacheWrite (decide (verts.length ≤ VertexCacheSize))
            states.transform verts (ensureActiveW w))).2
         ++ clientStateCmds (decide (verts.length ≤ VertexCacheSize))
            (states.texture.isSome || states.shader.isSome)
            (setupDraw caps (decide (verts.length ≤ VertexCacheSize)) states
              (vertexCacheWrite (decide (verts.length ≤ VertexCacheSize))
                states.transform verts (ensureActiveW w))).1
         ++ [GLCmd.drawArraysCmd (primitiveToGl ptype) 0 verts.length]
         ++ (cleanupDraw states (setupDraw caps
              (decide (verts.length ≤ VertexCacheSize)) states
              (vertexCacheWrite (decide (verts.length ≤ VertexCacheSize))
                states.transform verts (ensureActiveW w))).1).2) := rfl

/-! ## Claim theorems: blend-mode memoization -/

/-- C4: on an active target in the steady state (cache valid, baseline
    pushed), a draw whose blend mode equals the cached `lastBlendMode` in all
    six sub-fields issues no blend-state-change command; a draw whose mode
    differs invokes `applyBlendMode` (a blend command is issued) and updates
    `lastBlendMode` to the new mode.  Moreover any such draw leaves the
    target exactly in that steady state with `lastBlendMode` equal to its own
    blend mode, so the two cases describe the second of two consecutive
    draws. -/
theorem c4_blend_mode_memoization (caps : Caps) (w : RTWorld)
    (verts : List Vertex) (ptype : PrimitiveType) (states : RenderStates)
    (hact : isActiveW w = true) (hen : w.cache.enable = true)
    (hgs : w.cache.glStatesSet = true) (hne : verts ≠ []) :
    (states.blendMode = w.cache.lastBlendMode →
      ∀ c ∈ (draw caps w (some verts) ptype states).2, isBlendCmd c = false) ∧
    (states.blendMode ≠ w.cache.lastBlendMode →
      (draw caps w (some verts) ptype states).1.cache.lastBlendMode
        = states.blendMode ∧
      ∃ c ∈ (draw caps w (some verts) ptype states).2, isBlendCmd c = true) ∧
    ((draw caps w (some verts) ptype states).1.cache.enable = true ∧
      (draw caps w (some verts) ptype states).1.cache.glStatesSet = true ∧
      (draw caps w (some verts) ptype states).1.cache.lastBlendMode
        = states.blendMode ∧
      isActiveW (draw caps w (some verts) ptype states).1 = true) := by
  have hE : ensureActiveW w = w := ensureActiveW_of_active w hact
  obtain ⟨x1, x2, x3, x4, x5, x6, x7, x8, x9, x10, x11, x12⟩ :=
    vertexCacheWrite_fst_fields (decide (verts.length ≤ VertexCacheSize))
      states.transform verts w
  obtain ⟨s1, s2, s3, s4, s5, s6, s7, s8⟩ :=
    setupDraw_steady caps (decide (verts.length ≤ VertexCacheSize)) states
      (vertexCacheWrite (decide (verts.length ≤ VertexCacheSize))
        states.transform verts w)
      (x1.trans hen) (x2.trans hgs)
  obtain ⟨c1, c2, c3, c4, c5, c6, c7, c8, c9⟩ :=
    cleanupDraw_fst_fields states
      (setupDraw caps (decide (verts.length ≤ VertexCacheSize)) states
        (vertexCacheWrite (decide (verts.length ≤ VertexCacheSize))
          states.transform verts w)).1
  rw [draw_eq_core caps w verts ptype states hne, drawCore_eq, hE]
  dsimp only
  refine ⟨?_, fun hbm => ⟨?_, ?_⟩, ?_, ?_, ?_, ?_⟩
  · intro hbm c hc
    simp only [List.mem_append, List.mem_singleton] at hc
    rcases hc with ((hc | hc) | rfl) | hc
    · exact s2 (hbm.trans x4.symm) c hc
    · exact clientStateCmds_noBlend _ _ _ c hc
    · rfl
    · exact cleanupDraw_snd_noBlend states _ c hc
  · rw [c3, s1]
  · obtain ⟨c, hc, hcb⟩ := s3 (by rw [x4]; exact hbm)
    exact ⟨c, by simp [hc], hcb⟩
  · exact c1
  · rw [c2, s5]
  · rw [c3, s1]
  · refine Eq.trans (isActiveW_eq_of_fields w _ ?_ ?_ ?_) hact
    · dsimp only
      rw [c7, s6, x10]
    · dsimp only
      rw [c8, s7, x11]
    · dsimp only
      rw [c9, s8, x12]

theorem c4_witness :
    isActiveW sampleWorld = true ∧
    sampleWorld.cache.enable = true ∧
    sampleWorld.cache.glStatesSet = true ∧
    sampleVerts4 ≠ [] ∧
    ((sampleStates.blendMode = sampleWorld.cache.lastBlendMode →
        ∀ c ∈ (draw sampleCaps sampleWorld (some sampleVerts4)
          PrimitiveType.triangles sampleStates).2, isBlendCmd c = false) ∧
      (sampleStates.blendMode ≠ sampleWorld.cache.lastBlendMode →
        (draw sampleCaps sampleWorld (some sampleVerts4)
          PrimitiveType.triangles sampleStates).1.cache.lastBlendMode
          = sampleStates.blendMode ∧
        ∃ c ∈ (draw sampleCaps sampleWorld (some sampleVerts4)
          PrimitiveType.triangles sampleStates).2, isBlendCmd c = true) ∧
      ((draw sampleCaps sampleWorld (some sampleVerts4)
          PrimitiveType.triangles sampleStates).1.cache.enable = true ∧
        (draw sampleCaps sampleWorld (some sampleVerts4)
          PrimitiveType.triangles sampleStates).1.cache.glStatesSet = true ∧
        (draw sampleCaps sampleWorld (some sampleVerts4)
          PrimitiveType.triangles sampleStates).1.cache.lastBlendMode
          = sampleStates.blendMode ∧
        isActiveW (draw sampleCaps sampleWorld (some sampleVerts4)
          PrimitiveType.triangles sampleStates).1 = true)) :=
  ⟨by decide, rfl, rfl, by decide,
    c4_blend_mode_memoization sampleCaps sampleWorld sampleVerts4
      PrimitiveType.triangles sampleStates (by decide) rfl rfl (by decide)⟩

/-! ## Claim theorems: vertex-cache threshold -/

theorem overwriteFront_take (xs ys : List Vertex)
    (h : xs.length ≤ ys.length) :
    (overwriteFront xs ys).take xs.length = xs := by
  induction xs generalizing ys with
  | nil => simp [overwriteFront]
  | cons x xs ih =>
      cases ys with
      | nil => simp at h
      | cons y ys =>
          simp only [overwriteFront, List.length_cons, List.take_succ_cons]
          rw [ih ys (by simpa using h)]

theorem setupDraw_fst_vertexCache (caps : Caps) (uvc : Bool)
    (states : RenderStates) (w : RTWorld) :
    (setupDraw caps uvc states w).1.cache.vertexCache
      = w.cache.vertexCache := by
  unfold setupDraw
  dsimp only
  rw [(textureStep_fst_fields _ _).2.2.2.2.2.2.1,
    (blendStep_fst_fields _ _ _).2.2.2.2.2.2.1,
    (viewStep_fst_fields _).2.2.2.2.2.2.1,
    glStatesStep_fst_vertexCache]

theorem setupDraw_mem_transform (caps : Caps) (states : RenderStates)
    (w : RTWorld) (c : GLCmd)
    (hc : c ∈ applyTransformCmds states.transform) :
    c ∈ (setupDraw caps false states w).2 := by
  unfold setupDraw
  dsimp only
  have h2 : c ∈ transformCmds false states.transform
      (glStatesStep caps w).1 := by
    simpa [transformCmds] using hc
  simp only [List.mem_append]
  exact Or.inl (Or.inl (Or.inl (Or.inl (Or.inr h2))))

/-- C3: a draw of a non-null, non-empty vertex array on an active target
    pre-transforms the vertices into the internal cache and leaves
    `useVertexCache` true exactly when the count fits
    `StatesCache::VertexCacheSize`; a count exceeding the capacity applies
    `states.transform` as GPU matrix state and leaves `useVertexCache`
    false. -/
theorem c3_vertex_cache_threshold (caps : Caps) (w : RTWorld)
    (verts : List Vertex) (ptype : PrimitiveType) (states : RenderStates)
    (hact : isActiveW w = true)
    (hlen : w.cache.vertexCache.length = VertexCacheSize)
    (hne : verts ≠ []) :
    ((draw caps w (some verts) ptype states).1.cache.useVertexCache = true
      ↔ verts.length ≤ VertexCacheSize) ∧
    (verts.length ≤ VertexCacheSize →
      ((draw caps w (some verts) ptype states).1.cache.vertexCache).take
          verts.length
        = verts.map (transformVertex states.transform)) ∧
    (VertexCacheSize < verts.length →
      (if states.transform = Transform.identity then GLCmd.loadIdentity
       else GLCmd.loadMatrix states.transform)
        ∈ (draw caps w (some verts) ptype states).2) := by
  have hE : ensureActiveW w = w := ensureActiveW_of_active w hact
  rw [draw_eq_core caps w verts ptype states hne, drawCore_eq, hE]
  dsimp only
  refine ⟨by simp, ?_, ?_⟩
  · intro hle
    have huv : decide (verts.length ≤ VertexCacheSize) = true := by
      simpa using hle
    rw [(cleanupDraw_fst_fields _ _).2.2.2.1, setupDraw_fst_vertexCache,
      huv]
    unfold vertexCacheWrite
    simp only [if_true]
    have hx : (verts.map (transformVertex states.transform)).length
        = verts.length := List.length_map _ _
    rw [← hx]
    exact overwriteFront_take _ _ (by rw [hx, hlen]; exact hle)
  · intro hgt
    have huv : decide (verts.length ≤ VertexCacheSize) = false := by
      simpa using hgt
    have hc : (if states.transform = Transform.identity then
        GLCmd.loadIdentity else GLCmd.loadMatrix states.transform)
        ∈ applyTransformCmds states.transform := by
      unfold applyTransformCmds
      split <;> simp_all
    rw [huv]
    simp only [List.mem_append]
    exact Or.inl (Or.inl (Or.inl (setupDraw_mem_transform caps states _ _ hc)))

theorem c3_witness :
    isActiveW sampleWorld = true ∧
    sampleWorld.cache.vertexCache.length = VertexCacheSize ∧
    sampleVerts5 ≠ [] ∧
    (((draw sampleCaps sampleWorld (some sampleVerts5)
        PrimitiveType.triangles sampleStates).1.cache.useVertexCache = true
        ↔ sampleVerts5.length ≤ VertexCacheSize) ∧
      (sampleVerts5.length ≤ VertexCacheSize →
        ((draw sampleCaps sampleWorld (some sampleVerts5)
          PrimitiveType.triangles sampleStates).1.cache.vertexCache).take
            sampleVerts5.length
          = sampleVerts5.map (transformVertex sampleStates.transform)) ∧
      (VertexCacheSize < sampleVerts5.length →
        (if sampleStates.transform = Transform.identity then
          GLCmd.loadIdentity else GLCmd.loadMatrix sampleStates.transform)
          ∈ (draw sampleCaps sampleWorld (some sampleVerts5)
            PrimitiveType.triangles sampleStates).2)) :=
  ⟨by decide, rfl, by decide,
    c3_vertex_cache_threshold sampleCaps sampleWorld sampleVerts5
      PrimitiveType.triangles sampleStates (by decide) rfl (by decide)⟩

/-! ## Claim theorems: blend-equation fallback -/

theorem applyBlendModeAux_noEq (caps : Caps) (mode : BlendMode)
    (we wb : Bool) (h1 : caps.blendMinmax = false)
    (h2 : caps.blendSubtract = false) :
    ∀ c ∈ (applyBlendModeAux caps mode we wb).2.2,
      isBlendEquationCmd c = false := by
  intro c hc
  unfold applyBlendModeAux at hc
  rw [h1, h2] at hc
  simp only [Bool.false_eq_true, or_self, if_false] at hc
  repeat' split at hc
  all_goals cases c <;> simp_all [isBlendEquationCmd]

theorem transformCmds_noEq (useVC : Bool) (t : Transform) (w : RTWorld) :
    ∀ c ∈ transformCmds useVC t w, isBlendEquationCmd c = false := by
  intro c hc
  unfold transformCmds applyTransformCmds at hc
  repeat' split at hc
  all_goals cases c <;> simp_all [isBlendEquationCmd]

theorem viewStep_snd_noEq (w : RTWorld) :
    ∀ c ∈ (viewStep w).2, isBlendEquationCmd c = false := by
  intro c hc
  unfold viewStep applyCurrentView at hc
  split at hc
  all_goals cases c <;> simp_all [isBlendEquationCmd]

theorem textureStep_snd_noEq (states : RenderStates) (w : RTWorld) :
    ∀ c ∈ (textureStep states w).2, isBlendEquationCmd c = false := by
  intro c hc
  unfold textureStep applyTexture at hc
  repeat' split at hc
  all_goals cases c <;> simp_all [isBlendEquationCmd]

theorem cleanupDraw_snd_noEq (states : RenderStates) (w : RTWorld) :
    ∀ c ∈ (cleanupDraw states w).2, isBlendEquationCmd c = false := by
  intro c hc
  unfold cleanupDraw applyTexture at hc
  repeat' split at hc
  all_goals cases c <;> simp_all [isBlendEquationCmd]

theorem clientStateCmds_noEq (useVC etc : Bool) (w : RTWorld) :
    ∀ c ∈ clientStateCmds useVC etc w, isBlendEquationCmd c = false := by
  intro c hc
  unfold clientStateCmds at hc
  repeat' split at hc
  all_goals cases c <;> simp_all [isBlendEquationCmd]

theorem blendStep_snd_noEq (caps : Caps) (states : RenderStates)
    (w : RTWorld) (h1 : caps.blendMinmax = false)
    (h2 : caps.blendSubtract = false) :
    ∀ c ∈ (blendStep caps states w).2, isBlendEquationCmd c = false := by
  intro c hc
  unfold blendStep at hc
  split at hc
  · rw [applyBlendMode_snd] at hc
    exact applyBlendModeAux_noEq caps states.blendMode _ _ h1 h2 c hc
  · simp at hc

theorem resetGLStates_snd_noEq (caps : Caps) (w : RTWorld)
    (h1 : caps.blendMinmax = false) (h2 : caps.blendSubtract = false) :
    ∀ c ∈ (resetGLStates caps w).2, isBlendEquationCmd c = false := by
  unfold resetGLStates applyTexture
  dsimp only
  rw [applyBlendMode_snd]
  simp only [List.forall_mem_append]
  refine ⟨⟨⟨⟨⟨⟨?_, ?_⟩, ?_⟩, ?_⟩, ?_⟩, ?_⟩, ?_⟩
  · decide
  · split <;> decide
  · decide
  · exact applyBlendModeAux_noEq caps blendAlpha _ _ h1 h2
  · decide
  · split <;> decide
  · split <;> decide

theorem glStatesStep_snd_noEq (caps : Caps) (w : RTWorld)
    (h1 : caps.blendMinmax = false) (h2 : caps.blendSubtract = false) :
    ∀ c ∈ (glStatesStep caps w).2, isBlendEquationCmd c = false := by
  intro c hc
  unfold glStatesStep at hc
  split at hc
  · exact resetGLStates_snd_noEq caps w h1 h2 c hc
  · simp at hc

theorem setupDraw_snd_noEq (caps : Caps) (uvc : Bool)
    (states : RenderStates) (w : RTWorld) (h1 : caps.blendMinmax = false)
    (h2 : caps.blendSubtract = false) :
    ∀ c ∈ (setupDraw caps uvc states w).2, isBlendEquationCmd c = false := by
  intro c hc
  unfold setupDraw at hc
  dsimp only at hc
  simp only [List.mem_append] at hc
  rcases hc with (((((hc | hc) | hc) | hc) | hc) | hc) | hc
  · revert hc
    split <;> intro hc <;> (cases c <;> simp_all [isBlendEquationCmd])
  · exact glStatesStep_snd_noEq caps w h1 h2 c hc
  · exact transformCmds_noEq uvc states.transform _ c hc
  · exact viewStep_snd_noEq _ c hc
  · exact blendStep_snd_noEq caps states _ h1 h2 c hc
  · exact textureStep_snd_noEq states _ c hc
  · revert hc
    split <;> intro hc <;> (cases c <;> simp_all [isBlendEquationCmd])

theorem drawCore_mem_drawArrays (caps : Caps) (w : RTWorld)
    (verts : List Vertex) (ptype : PrimitiveType) (states : RenderStates) :
    GLCmd.drawArraysCmd (primitiveToGl ptype) 0 verts.length
      ∈ (drawCore caps w verts ptype states).2 := by
  rw [drawCore_eq]
  simp

theorem blendWarnCount_append (a b : List GLCmd) :
    blendWarnCount (a ++ b) = blendWarnCount a + blendWarnCount b := by
  simp [blendWarnCount, List.filter_append]

theorem warnStep_aux (caps : Caps) (mode : BlendMode) (we wb : Bool)
    (h1 : caps.blendMinmax = false) (h2 : caps.blendSubtract = false) :
    blendWarnCount (applyBlendModeAux caps mode we wb).2.2
      + (if (applyBlendModeAux caps mode we wb).2.1 = true then 0 else 1)
      ≤ (if wb = true then 0 else 1) := by
  unfold applyBlendModeAux
  rw [h1, h2]
  simp only [Bool.false_eq_true, or_self, if_false]
  repeat' split
  all_goals simp_all [blendWarnCount, List.filter_append]

theorem applyBlendModeAux_add_count (caps : Caps) (we wb : Bool) :
    blendWarnCount (applyBlendModeAux caps blendAlpha we wb).2.2 = 0 := by
  unfold applyBlendModeAux equationToGlConstant blendAlpha
  repeat' split
  all_goals simp_all [blendWarnCount, List.filter_append]

theorem warnStep_blendStep (caps : Caps) (states : RenderStates)
    (w : RTWorld) (h1 : caps.blendMinmax = false)
    (h2 : caps.blendSubtract = false) :
    blendWarnCount (blendStep caps states w).2
      + warnBudget (blendStep caps states w).1 ≤ warnBudget w := by
  unfold blendStep
  split
  · rw [applyBlendMode_snd]
    unfold warnBudget
    rw [(applyBlendMode_fst_warned caps states.blendMode w).2]
    exact warnStep_aux caps states.blendMode _ _ h1 h2
  · simp [blendWarnCount, warnBudget]

theorem resetGLStates_warn_count (caps : Caps) (w : RTWorld) :
    blendWarnCount (resetGLStates caps w).2 = 0 := by
  unfold resetGLStates applyTexture
  dsimp only
  rw [applyBlendMode_snd]
  simp only [blendWarnCount_append, applyBlendModeAux_add_count]
  repeat' split
  all_goals rfl

theorem warnStep_glStatesStep (caps : Caps) (w : RTWorld) :
    blendWarnCount (glStatesStep caps w).2
      + warnBudget (glStatesStep caps w).1 ≤ warnBudget w := by
  unfold glStatesStep
  split
  · rw [resetGLStates_warn_count]
    unfold warnBudget
    rw [(resetGLStates_fst_fields caps w).2.2.2.2.2.2.2]
    simp
  · simp [blendWarnCount, warnBudget]

theorem warnStep_setupDraw (caps : Caps) (uvc : Bool)
    (states : RenderStates) (w : RTWorld) (h1 : caps.blendMinmax = false)
    (h2 : caps.blendSubtract = false) :
    blendWarnCount (setupDraw caps uvc states w).2
      + warnBudget (setupDraw caps uvc states w).1 ≤ warnBudget w := by
  unfold setupDraw
  dsimp only
  simp only [blendWarnCount_append]
  have he0 : blendWarnCount (if w.cache.enable = false then
      [GLCmd.disableFramebufferSrgb] else []) = 0 := by
    split <;> rfl
  have he6 : blendWarnCount (if states.shader.isSome = true then
      [GLCmd.shaderBind states.shader] else []) = 0 := by
    split <;> rfl
  have htr : blendWarnCount (transformCmds uvc states.transform
      (glStatesStep caps w).1) = 0 := by
    unfold transformCmds applyTransformCmds
    repeat' split
    all_goals rfl
  have hview : blendWarnCount (viewStep (glStatesStep caps w).1).2 = 0 := by
    unfold viewStep applyCurrentView
    split <;> rfl
  have htex : blendWarnCount (textureStep states
      (blendStep caps states (viewStep (glStatesStep caps w).1).1).1).2
      = 0 := by
    unfold textureStep applyTexture
    repeat' split
    all_goals rfl
  have hg := warnStep_glStatesStep caps w
  have hb := warnStep_blendStep caps states
    (viewStep (glStatesStep caps w).1).1 h1 h2
  have hbv : warnBudget (viewStep (glStatesStep caps w).1).1
      = warnBudget (glStatesStep caps w).1 := by
    unfold warnBudget
    rw [(viewStep_fst_fields _).2.2.2.2.2.2.2.2.1]
  have hbt : warnBudget (textureStep states
      (blendStep caps states (viewStep (glStatesStep caps w).1).1).1).1
      = warnBudget
        (blendStep caps states (viewStep (glStatesStep caps w).1).1).1 := by
    unfold warnBudget
    rw [(textureStep_fst_fields _ _).2.2.2.2.2.2.2.2.1]
  rw [he0, he6, htr, hview, htex, hbt]
  omega

theorem warnStep_draw (caps : Caps) (w : RTWorld)
    (vertices : Option (List Vertex)) (ptype : PrimitiveType)
    (states : RenderStates) (h1 : caps.blendMinmax = false)
    (h2 : caps.blendSubtract = false) :
    blendWarnCount (draw caps w vertices ptype states).2
      + warnBudget (draw caps w vertices ptype states).1 ≤ warnBudget w := by
  match vertices with
  | none => simp [draw, blendWarnCount]
  | some verts =>
    by_cases h0 : verts.length = 0
    · simp [draw, h0, blendWarnCount]
    · have hcore : draw caps w (some verts) ptype states
          = drawCore caps w verts ptype states := by
        simp only [draw]
        rw [if_neg h0]
      rw [hcore, drawCore_eq]
      dsimp only
      simp only [blendWarnCount_append]
      have hcl : blendWarnCount (clientStateCmds
          (decide (verts.length ≤ VertexCacheSize))
          (states.texture.isSome || states.shader.isSome)
          (setupDraw caps (decide (verts.length ≤ VertexCacheSize)) states
            (vertexCacheWrite (decide (verts.length ≤ VertexCacheSize))
              states.transform verts (ensureActiveW w))).1) = 0 := by
        unfold clientStateCmds
        dsimp only
        rw [blendWarnCount_append]
        have a1 : ∀ l1 l2 : List GLCmd, blendWarnCount l1 = 0 →
            blendWarnCount l2 = 0 → blendWarnCount l1 + blendWarnCount l2
              = 0 := by
          intro l1 l2 a b
          rw [a, b]
        apply a1 <;>
          (repeat' split
           all_goals rfl)
      have hcln : blendWarnCount ((cleanupDraw states
          (setupDraw caps (decide (verts.length ≤ VertexCacheSize)) states
            (vertexCacheWrite (decide (verts.length ≤ VertexCacheSize))
              states.transform verts (ensureActiveW w))).1).2) = 0 := by
        unfold cleanupDraw applyTexture
        dsimp only
        rw [blendWarnCount_append]
        repeat' split
        all_goals rfl
      have hs := warnStep_setupDraw caps
        (decide (verts.length ≤ VertexCacheSize)) states
        (vertexCacheWrite (decide (verts.length ≤ VertexCacheSize))
          states.transform verts (ensureActiveW w)) h1 h2
      have hb2 : warnBudget (vertexCacheWrite
          (decide (verts.length ≤ VertexCacheSize)) states.transform verts
          (ensureActiveW w)) = warnBudget w := by
        unfold warnBudget
        rw [(vertexCacheWrite_fst_fields _ _ _ _).2.2.2.2.2.2.2.2.1,
          (ensureActiveW_fields w).2.2.2.2.2.2.1]
      have hbfin : warnBudget (cleanupDraw states
          (setupDraw caps (decide (verts.length ≤ VertexCacheSize)) states
            (vertexCacheWrite (decide (verts.length ≤ VertexCacheSize))
              states.transform verts (ensureActiveW w))).1).1
          = warnBudget (setupDraw caps
            (decide (verts.length ≤ VertexCacheSize)) states
            (vertexCacheWrite (decide (verts.length ≤ VertexCacheSize))
              states.transform verts (ensureActiveW w))).1 := by
        unfold warnBudget
        rw [(cleanupDraw_fst_fields _ _).2.2.2.2.2.1]
      rw [hcl, hcln] at *
      rw [hb2] at hs
      have hfin : warnBudget ({ (cleanupDraw states
          (setupDraw caps (decide (verts.length ≤ VertexCacheSize)) states
            (vertexCacheWrite (decide (verts.length ≤ VertexCacheSize))
              states.transform verts (ensureActiveW w))).1).1 with
          cache := { (cleanupDraw states
            (setupDraw caps (decide (verts.length ≤ VertexCacheSize)) states
              (vertexCacheWrite (decide (verts.length ≤ VertexCacheSize))
                states.transform verts (ensureActiveW w))).1).1.cache with
            useVertexCache := decide (verts.length ≤ VertexCacheSize),
            texCoordsArrayEnabled :=
              states.texture.isSome || states.shader.isSome } })
          = warnBudget (cleanupDraw states
            (setupDraw caps (decide (verts.length ≤ VertexCacheSize)) states
              (vertexCacheWrite (decide (verts.length ≤ VertexCacheSize))
                states.transform verts (ensureActiveW w))).1).1 := rfl
      rw [hfin, hbfin]
      have hdr : blendWarnCount
          [GLCmd.drawArraysCmd (primitiveToGl ptype) 0 verts.length] = 0 :=
        rfl
      omega

theorem warnSeq_drawSeq (caps : Caps) (inputs : List DrawInput)
    (h1 : caps.blendMinmax = false) (h2 : caps.blendSubtract = false) :
    ∀ w : RTWorld,
      blendWarnCount (drawSeq caps inputs w).2
        + warnBudget (drawSeq caps inputs w).1 ≤ warnBudget w := by
  induction inputs with
  | nil =>
      intro w
      simp [drawSeq, blendWarnCount]
  | cons d rest ih =>
      intro w
      unfold drawSeq
      dsimp only
      rw [blendWarnCount_append]
      have hd := warnStep_draw caps w d.vertices d.ptype d.states h1 h2
      have hr := ih (draw caps w d.vertices d.ptype d.states).1
      omega

/-- C7: with neither the blend-subtract nor the blend-minmax extension
    available, a draw requesting a non-additive blend equation issues no
    blend-equation command at all (the context keeps the default additive
    equation) and the primitive draw command is still issued; and across any
    sequence of draws the missing-equation warning is emitted at most once
    per process (the static `warned` flag). -/
theorem c7_blend_equation_fallback :
    (∀ (caps : Caps) (w : RTWorld) (verts : List Vertex)
        (ptype : PrimitiveType) (states : RenderStates),
      caps.blendMinmax = false → caps.blendSubtract = false →
      (states.blendMode.colorEquation ≠ BlendEquation.add ∨
        states.blendMode.alphaEquation ≠ BlendEquation.add) →
      verts ≠ [] →
      (∀ c ∈ (draw caps w (some verts) ptype states).2,
        isBlendEquationCmd c = false) ∧
      GLCmd.drawArraysCmd (primitiveToGl ptype) 0 verts.length
        ∈ (draw caps w (some verts) ptype states).2) ∧
    (∀ (caps : Caps) (inputs : List DrawInput) (w : RTWorld),
      caps.blendMinmax = false → caps.blendSubtract = false →
      w.warnedBlendUnavailable = false →
      blendWarnCount (drawSeq caps inputs w).2 ≤ 1) := by
  constructor
  · intro caps w verts ptype states h1 h2 _hna hne
    have hcore : draw caps w (some verts) ptype states
        = drawCore caps w verts ptype states := draw_eq_core _ _ _ _ _ hne
    constructor
    · intro c hc
      rw [hcore, drawCore_eq] at hc
      dsimp only at hc
      simp only [List.mem_append] at hc
      rcases hc with ((hc | hc) | hc) | hc
      · exact setupDraw_snd_noEq caps _ states _ h1 h2 c hc
      · exact clientStateCmds_noEq _ _ _ c hc
      · simp only [List.mem_singleton] at hc
        subst hc
        rfl
      · exact cleanupDraw_snd_noEq states _ c hc
    · rw [hcore]
      exact drawCore_mem_drawArrays caps w verts ptype states
  · intro caps inputs w h1 h2 hw
    have := warnSeq_drawSeq caps inputs h1 h2 w
    unfold warnBudget at this
    rw [hw] at this
    simp at this
    omega

/-- Witness for C7: on a target whose capabilities lack both blend
    extensions, a concrete draw with a subtract colour equation issues no
    blend-equation command yet still issues the drawArrays command, and two
    such draws in sequence from a fresh warning flag emit at most one
    warning. -/
theorem c7_witness :
    ((∀ c ∈ (draw sampleCaps sampleWorld (some sampleVerts4)
        PrimitiveType.triangles sampleStatesSub).2,
      isBlendEquationCmd c = false) ∧
     GLCmd.drawArraysCmd (primitiveToGl PrimitiveType.triangles) 0
        sampleVerts4.length
       ∈ (draw sampleCaps sampleWorld (some sampleVerts4)
          PrimitiveType.triangles sampleStatesSub).2) ∧
    blendWarnCount (drawSeq sampleCaps
      [⟨some sampleVerts4, PrimitiveType.triangles, sampleStatesSub⟩,
       ⟨some sampleVerts4, PrimitiveType.triangles, sampleStatesSub⟩]
      sampleWorld).2 ≤ 1 :=
  ⟨c7_blend_equation_fallback.1 sampleCaps sampleWorld sampleVerts4
      PrimitiveType.triangles sampleStatesSub rfl rfl
      (Or.inl (by simp [sampleStatesSub]))
      (by unfold sampleVerts4; exact List.cons_ne_nil _ _),
   c7_blend_equation_fallback.2 sampleCaps
      [⟨some sampleVerts4, PrimitiveType.triangles, sampleStatesSub⟩,
       ⟨some sampleVerts4, PrimitiveType.triangles, sampleStatesSub⟩]
      sampleWorld rfl rfl rfl⟩

end SFMLSpec
